import Mathlib

/-!
Verification of the Dawn.com blog scraper repository.

Shallow embedding of the ingestion engine: `database.py` (deduplicating
persistence gateway), `scraper.py` (scraping pipeline, classifier, date
parsing, recency check, link extraction) and `scheduler.py` (poll loop).

Modelling conventions:
* Python dict records become structures; a missing dict key is modelled by
  the falsy default the code supplies (`''` for title, `None` for url).
* SQLAlchemy stores become `List ArticleRow`; the auto-assigned `id` and
  `scraped_at` columns play no role in any claim and are omitted; a row's
  position in the list stands for its insertion order.
* Exceptions become explicit: `add_article` takes a `fault` flag modelling a
  generic storage exception at commit time (the `except Exception` branch in
  `database.py`), while the `IntegrityError` branch is triggered exactly by
  the table's unique constraints on `title` and (non-null) `url`.
* Network effects become environment functions: the listing fetch is an
  `Option (List String)` and per-article fetch+extraction is a function
  `String → Option ArticleData` (`none` = fetch failure).
* Timestamps are `Int` seconds (the code compares `total_seconds()` of a
  datetime difference against 600).
-/

/-! ## Persistence gateway (database.py) -/

/-- The `article_data` dict handed to `add_article`.  `title`/`content`
default to `''` when absent, `url`/`category`/`published_date` to `None`. -/
structure AddRecord where
  title : String
  content : String
  category : Option String
  url : Option String
  published_date : Option Int
  is_processed : Bool
deriving DecidableEq

/-- A persisted row of the `articles` table (id/scraped_at omitted; see
module docstring). -/
structure ArticleRow where
  title : String
  content : String
  category : Option String
  url : Option String
  published_date : Option Int
  is_processed : Bool
deriving DecidableEq

/-- Python truthiness of the optional `url` value: `None` and `''` are falsy. -/
def urlTruthy : Option String → Bool
  | none => false
  | some s => s != ""

/-- The row built by `Article(title=..., content=..., ...)` from the record. -/
def mkRow (rec : AddRecord) : ArticleRow :=
  { title := rec.title
    content := rec.content
    category := rec.category
    url := rec.url
    published_date := rec.published_date
    is_processed := rec.is_processed }

/-- The condition under which the `articles` table's unique constraints
(`unique_title` on `title`, `unique_url` on `url`) reject inserting `rec`
into `store`: an existing row with the same title, or — when the record's
url is non-null — an existing row with the same url (SQLite treats NULLs
as distinct for UNIQUE). -/
def dupExists (store : List ArticleRow) (rec : AddRecord) : Bool :=
  store.any (fun a => a.title == rec.title || (rec.url.isSome && a.url == rec.url))

/-- `add_article(db, article_data)` from database.py.
First a pre-check: look up an existing row by title (if the title is
truthy), then by url (if the url is truthy); a hit returns `None` leaving
the store unchanged.  Otherwise insert and commit: the commit raises
`IntegrityError` when a unique constraint is violated (rollback, return
`None`), raises a generic storage exception when `fault` is set
(rollback, return `None`), and otherwise appends the new row. -/
def add_article (fault : Bool) (store : List ArticleRow) (rec : AddRecord) :
    Option ArticleRow × List ArticleRow :=
  let existingByTitle : Option ArticleRow :=
    if rec.title != "" then store.find? (fun a => a.title == rec.title) else none
  let existing : Option ArticleRow :=
    match existingByTitle with
    | some a => some a
    | none =>
      if urlTruthy rec.url then store.find? (fun a => a.url == rec.url) else none
  match existing with
  | some _ => (none, store)
  | none =>
    if dupExists store rec then (none, store)
    else if fault then (none, store)
    else (some (mkRow rec), store ++ [mkRow rec])

/-! ## Scraping pipeline (scraper.py) -/

/-- The article-data dict produced by `extract_article_content` /
`scrape_article` (`title`, `content`, `category`, `url` strings,
`published_date` optional timestamp). -/
structure ArticleData where
  title : String
  content : String
  category : String
  url : String
  published_date : Option Int
deriving DecidableEq

/-- `DawnScraper.scrape_article(url)`: fetch and extract the page (modelled
by the environment `fetchExtract`; `none` = fetch failure), set the `url`
field, then validate: empty title or empty content rejects the record, as
does content shorter than 100 characters. -/
def scrape_article (fetchExtract : String → Option ArticleData) (url : String) :
    Option ArticleData :=
  match fetchExtract url with
  | none => none
  | some d0 =>
    let d := { d0 with url := url }
    if d.title = "" ∨ d.content = "" then none
    else if d.content.length < 100 then none
    else some d

/-- `DawnScraper.scrape_latest_articles(max_articles)`: if the listing fetch
failed (`none`) return `[]`; otherwise truncate the discovered links to
`max_articles` and collect the successfully scraped articles in order. -/
def scrape_latest_articles (listing : Option (List String))
    (fetchExtract : String → Option ArticleData) (max_articles : Nat) :
    List ArticleData :=
  match listing with
  | none => []
  | some article_links =>
    (article_links.take max_articles).filterMap (scrape_article fetchExtract)

/-- The record `save_articles_to_db` passes to `add_article` for a scraped
article: url and category are present (non-null), `is_processed` defaults. -/
def toAddRecord (a : ArticleData) : AddRecord :=
  { title := a.title
    content := a.content
    category := some a.category
    url := some a.url
    published_date := a.published_date
    is_processed := false }

/-- `DawnScraper.save_articles_to_db(articles)`: fold over the scraped
articles, attempting `add_article` for each and counting the successful
saves. -/
def save_articles_to_db (store : List ArticleRow) (articles : List ArticleData) :
    Nat × List ArticleRow :=
  articles.foldl
    (fun acc a =>
      match add_article false acc.2 (toAddRecord a) with
      | (some _, st) => (acc.1 + 1, st)
      | (none, st) => (acc.1, st))
    (0, store)

/-- The statistics dict returned by `run_scraping_job`. -/
structure ScrapeStats where
  total_scraped : Nat
  total_saved : Nat
  duplicates_skipped : Nat
deriving DecidableEq

/-- `DawnScraper.run_scraping_job(max_articles)`: scrape, save, and report
`total_scraped` / `total_saved` / `duplicates_skipped` statistics. -/
def run_scraping_job (store : List ArticleRow) (listing : Option (List String))
    (fetchExtract : String → Option ArticleData) (max_articles : Nat) :
    ScrapeStats × List ArticleRow :=
  let articles := scrape_latest_articles listing fetchExtract max_articles
  let res := save_articles_to_db store articles
  ({ total_scraped := articles.length
     total_saved := res.1
     duplicates_skipped := articles.length - res.1 }, res.2)

/-- `DawnScraper.is_recent_article(article_data)` on the datetime-typed
branch actually exercised by the pipeline: a missing `published_date` is
never recent; otherwise compare `(now - pub_date).total_seconds() <= 600`
(timestamps in whole seconds; `now` passed explicitly in place of
`datetime.utcnow()`). -/
def is_recent_article (published_date : Option Int) (now : Int) : Bool :=
  match published_date with
  | none => false
  | some pub => decide (now - pub ≤ 600)

/-! ## Scheduler loop (scheduler.py) -/

/-- Observable state of `ScrapingScheduler` plus instrumentation counters:
`invocations` counts job invocations issued by the loop, `errors_logged`
counts exceptions caught by the loop's `except` branch, `backoff_sleeps`
counts the `time.sleep(60)` calls. -/
structure SchedulerState where
  is_running : Bool
  stop_set : Bool
  invocations : Nat
  errors_logged : Nat
  backoff_sleeps : Nat
deriving DecidableEq

/-- One iteration of the `_run_scheduler` body: invoke the pending job
(whose outcome `raises` says whether it raised an exception into the loop),
catch and log any error, and sleep before looping.  The body never touches
`is_running` or the stop event. -/
def schedulerStep (raises : Bool) (st : SchedulerState) : SchedulerState :=
  { st with
    invocations := st.invocations + 1
    errors_logged := st.errors_logged + (if raises then 1 else 0)
    backoff_sleeps := st.backoff_sleeps + 1 }

/-- `ScrapingScheduler._run_scheduler`: `while self.is_running and not
self.stop_event.is_set()`, run one iteration.  `outcomes` is the (finite
prefix of the) schedule of job outcomes, one per iteration. -/
def runLoop (outcomes : List Bool) (st : SchedulerState) : SchedulerState :=
  match outcomes with
  | [] => st
  | raises :: rest =>
    if st.is_running && !st.stop_set then runLoop rest (schedulerStep raises st)
    else st

/-! ## Helper lemmas about the persistence gateway -/

/-- A witnessing member makes `dupExists` true. -/
lemma dupExists_mem (store : List ArticleRow) (rec : AddRecord) (a : ArticleRow)
    (ha : a ∈ store)
    (hb : ((a.title == rec.title) || (rec.url.isSome && (a.url == rec.url))) = true) :
    dupExists store rec = true := by
  simp only [dupExists, List.any_eq_true]
  exact ⟨a, ha, hb⟩

/-- If no stored row clashes with the record, `dupExists` is false. -/
lemma dupExists_eq_false_of (store : List ArticleRow) (rec : AddRecord)
    (h : ∀ a ∈ store, a.title ≠ rec.title ∧ (rec.url.isSome = true → a.url ≠ rec.url)) :
    dupExists store rec = false := by
  rcases hb : dupExists store rec with _ | _
  · rfl
  · exfalso
    simp only [dupExists, List.any_eq_true, Bool.or_eq_true, Bool.and_eq_true,
      beq_iff_eq] at hb
    rcases hb with ⟨a, ha, hp⟩
    rcases h a ha with ⟨h1, h2⟩
    rcases hp with ht | ⟨hs, hu⟩
    · exact h1 ht
    · exact h2 hs hu

/-- With the fault flag set, `add_article` always returns `None` and leaves
the store unchanged (rollback). -/
lemma add_article_fault_eq (store : List ArticleRow) (rec : AddRecord) :
    add_article true store rec = (none, store) := by
  simp only [add_article]
  split
  · rfl
  · split
    · rfl
    · simp

/-- When a duplicate exists, `add_article` rejects silently regardless of the
fault flag. -/
lemma add_article_of_dup (store : List ArticleRow) (rec : AddRecord) (fault : Bool)
    (h : dupExists store rec = true) :
    add_article fault store rec = (none, store) := by
  simp only [add_article]
  split
  · rfl
  · simp [h]

/-- With no duplicate and no fault, `add_article` appends the new row. -/
lemma add_article_of_not_dup (store : List ArticleRow) (rec : AddRecord)
    (h : dupExists store rec = false) :
    add_article false store rec = (some (mkRow rec), store ++ [mkRow rec]) := by
  have hnot : ∀ a ∈ store,
      ((a.title == rec.title) || (rec.url.isSome && (a.url == rec.url))) = false := by
    intro a ha
    rcases hb : (a.title == rec.title) || (rec.url.isSome && (a.url == rec.url)) with _ | _
    · rfl
    · exact absurd (dupExists_mem store rec a ha hb) (by simp [h])
  have hT : store.find? (fun a => a.title == rec.title) = none := by
    rw [List.find?_eq_none]
    intro a ha hcon
    have := hnot a ha
    simp only [hcon, Bool.true_or] at this
    exact absurd this (by simp)
  have hU : urlTruthy rec.url = true → store.find? (fun a => a.url == rec.url) = none := by
    intro hu
    have hsome : rec.url.isSome = true := by
      rcases hru : rec.url with _ | s
      · simp [urlTruthy, hru] at hu
      · rfl
    rw [List.find?_eq_none]
    intro a ha hcon
    have hthis := hnot a ha
    simp only [hcon, hsome, Bool.true_and, Bool.or_true] at hthis
    exact absurd hthis (by simp)
  rcases hu : urlTruthy rec.url with _ | _
  · simp only [add_article, hT, ite_self, hu]
    simp [h]
  · simp only [add_article, hT, ite_self, hu, hU hu]
    simp [h]

/-- `add_article` with no duplicate present returns `None` exactly never
(fault-free); together with `add_article_of_dup` this characterizes
rejection. -/
lemma add_article_none_iff (store : List ArticleRow) (rec : AddRecord) :
    (add_article false store rec).1 = none ↔ dupExists store rec = true := by
  rcases hdup : dupExists store rec with _ | _
  · rw [add_article_of_not_dup store rec hdup]
    simp
  · rw [add_article_of_dup store rec false hdup]
    simp

/-- A concrete record used by counterexamples and witnesses. -/
def sampleRec : AddRecord :=
  { title := "T", content := "body", category := none, url := some "u",
    published_date := none, is_processed := false }

/-- A stored row titled `"T"` with url `"u1"`. -/
def rowT : ArticleRow :=
  { title := "T", content := "c1", category := none, url := some "u1",
    published_date := none, is_processed := false }

/-- A stored row titled `"S"` with url `"u2"`. -/
def rowS : ArticleRow :=
  { title := "S", content := "c2", category := none, url := some "u2",
    published_date := none, is_processed := false }

/-- A record whose title matches `rowT` and whose url matches `rowS`. -/
def recTU2 : AddRecord :=
  { title := "T", content := "c3", category := none, url := some "u2",
    published_date := none, is_processed := false }

/-- C2 counterexample: on an empty store (so no duplicate exists at all) a
genuine storage failure makes `add_article` return `None` as well — the
`None` return is therefore NOT equivalent to duplicate rejection and is not
distinguishable from a storage failure, contrary to the claim. -/
theorem add_article_counterexample_C2 :
    (add_article true [] sampleRec).1 = none ∧ dupExists [] sampleRec = false := by
  constructor
  · rfl
  · rfl

/-- C2 (amended): in the absence of a storage failure, `add_article` returns
`None` (no persisted article) if and only if some persisted row has the
record's title, or the record's url is non-null and some persisted row has
that url; the rejection is silent (a `None` return, no exception), but a
genuine storage failure ALSO returns `None`, so the two are not
distinguishable from the return value. -/
theorem add_article_rejects_iff_duplicate (store : List ArticleRow) (rec : AddRecord) :
    ((add_article false store rec).1 = none ↔ dupExists store rec = true) ∧
    (add_article true store rec).1 = none := by
  refine ⟨add_article_none_iff store rec, ?_⟩
  rw [add_article_fault_eq]

/-- C3 counterexample: starting from a store holding one article with the
record's title (different url) and another with the record's url (different
title), calling `add_article` twice with the record inserts nothing: both
calls return `None`, the store is unchanged, zero persisted articles carry
the record's (title, url) identity, and two carry a component of it — not
"exactly one persisted article with that identity". -/
theorem add_article_twice_counterexample_C3 :
    (add_article false [rowT, rowS] recTU2).1 = none ∧
    (add_article false (add_article false [rowT, rowS] recTU2).2 recTU2).1 = none ∧
    (add_article false (add_article false [rowT, rowS] recTU2).2 recTU2).2 =
      [rowT, rowS] ∧
    (((add_article false (add_article false [rowT, rowS] recTU2).2 recTU2).2).filter
      (fun a => a.title == recTU2.title && a.url == recTU2.url)).length = 0 ∧
    (((add_article false (add_article false [rowT, rowS] recTU2).2 recTU2).2).filter
      (fun a => a.title == recTU2.title || a.url == recTU2.url)).length = 2 := by
  refine ⟨rfl, rfl, rfl, rfl, rfl⟩

/-- C3 (amended): if no already-persisted article shares the record's title
and none shares its non-null url, then (fault-free) calling `add_article`
twice with the same record yields exactly one persisted article with that
identity — the first call inserts it, the second is a rejected no-op.
Moreover, from ANY starting store, the second of two identical fault-free
calls returns `None` and leaves the store unchanged (no second row). -/
theorem add_article_idempotent :
    (∀ (store : List ArticleRow) (rec : AddRecord),
      (∀ a ∈ store, a.title ≠ rec.title ∧ (rec.url.isSome = true → a.url ≠ rec.url)) →
      (add_article false store rec).1 = some (mkRow rec) ∧
      (((add_article false store rec).2).filter
        (fun a => a.title == rec.title && a.url == rec.url)).length = 1) ∧
    (∀ (store : List ArticleRow) (rec : AddRecord),
      (add_article false (add_article false store rec).2 rec).1 = none ∧
      (add_article false (add_article false store rec).2 rec).2 =
        (add_article false store rec).2) := by
  constructor
  · intro store rec h
    have hdup : dupExists store rec = false := dupExists_eq_false_of store rec h
    rw [add_article_of_not_dup store rec hdup]
    refine ⟨rfl, ?_⟩
    rw [List.filter_append]
    have h1 : store.filter (fun a => a.title == rec.title && a.url == rec.url) = [] := by
      rw [List.filter_eq_nil_iff]
      intro a ha
      rcases h a ha with ⟨ht, _⟩
      simp [ht]
    have h2 : ([mkRow rec]).filter
        (fun a => a.title == rec.title && a.url == rec.url) = [mkRow rec] := by
      simp [mkRow]
    rw [h1, h2]
    rfl
  · intro store rec
    rcases hdup : dupExists store rec with _ | _
    · have hfirst := add_article_of_not_dup store rec hdup
      rw [hfirst]
      have hdup2 : dupExists (store ++ [mkRow rec]) rec = true := by
        apply dupExists_mem (store ++ [mkRow rec]) rec (mkRow rec)
        · exact List.mem_append_right store (by simp)
        · simp [mkRow]
      rw [add_article_of_dup _ rec false hdup2]
      exact ⟨rfl, rfl⟩
    · have hfirst := add_article_of_dup store rec false hdup
      rw [hfirst]
      rw [add_article_of_dup store rec false hdup]
      exact ⟨rfl, rfl⟩

/-- Witness for `add_article_idempotent`: the hypothesis holds for the empty
store and `sampleRec`, and the conclusion evaluates there. -/
theorem add_article_idempotent_witness :
    (∀ a ∈ ([] : List ArticleRow),
      a.title ≠ sampleRec.title ∧ (sampleRec.url.isSome = true → a.url ≠ sampleRec.url)) ∧
    (add_article false [] sampleRec).1 = some (mkRow sampleRec) := by
  refine ⟨by simp, (add_article_idempotent.1 [] sampleRec (by simp)).1⟩

/-- C5: `is_recent_article` is true iff the published timestamp is present
and `now` minus that timestamp is at most 600 seconds; in particular an
absent timestamp is never recent, an article published exactly 600 seconds
before `now` is recent and one published 601 seconds before is not. -/
theorem is_recent_article_iff :
    (∀ (pd : Option Int) (now : Int),
      is_recent_article pd now = true ↔ ∃ p, pd = some p ∧ now - p ≤ 600) ∧
    (∀ now : Int,
      is_recent_article (some (now - 600)) now = true ∧
      is_recent_article (some (now - 601)) now = false) := by
  constructor
  · intro pd now
    cases pd <;> simp [is_recent_article]
  · intro now
    constructor
    · simp only [is_recent_article, decide_eq_true_eq]
      omega
    · simp only [is_recent_article, decide_eq_false_iff_not]
      omega

/-- C10: an article whose published timestamp lies strictly in the future of
`now` is always flagged recent — the code uses the signed difference
`now - published`, which is then negative and hence at most 600. -/
theorem future_article_is_recent (pub now : Int) (h : now < pub) :
    is_recent_article (some pub) now = true := by
  simp only [is_recent_article, decide_eq_true_eq]
  omega

/-- Witness for `future_article_is_recent` at `pub = 1000`, `now = 0`. -/
theorem future_article_is_recent_witness :
    (0 : Int) < 1000 ∧ is_recent_article (some 1000) 0 = true :=
  ⟨by decide, future_article_is_recent 1000 0 (by decide)⟩

/-- C7: when the listing-page fetch fails, `run_scraping_job` returns a
statistics record in which every counter is zero and leaves the store
untouched; being a total function of its inputs, the model lets no
exception escape to the caller. -/
theorem run_scraping_job_zero_on_listing_failure (store : List ArticleRow)
    (fetchExtract : String → Option ArticleData) (max_articles : Nat) :
    run_scraping_job store none fetchExtract max_articles =
      ({ total_scraped := 0, total_saved := 0, duplicates_skipped := 0 }, store) := rfl

/-- The scheduler state the loop starts from after `start_scheduler`. -/
def initialSchedulerState : SchedulerState :=
  { is_running := true, stop_set := false, invocations := 0,
    errors_logged := 0, backoff_sleeps := 0 }

/-- The loop body never changes the `running` flag. -/
lemma runLoop_is_running (outcomes : List Bool) (st : SchedulerState) :
    (runLoop outcomes st).is_running = st.is_running := by
  induction outcomes generalizing st with
  | nil => rfl
  | cons o rest ih =>
    simp only [runLoop]
    split
    · rw [ih]
      rfl
    · rfl

/-- Invocation count is monotone along the loop. -/
lemma runLoop_invocations_le (outcomes : List Bool) (st : SchedulerState) :
    st.invocations ≤ (runLoop outcomes st).invocations := by
  induction outcomes generalizing st with
  | nil => exact le_refl _
  | cons o rest ih =>
    simp only [runLoop]
    split
    · exact le_trans (by simp [schedulerStep]) (ih _)
    · exact le_refl _

/-- Logged-error count is monotone along the loop. -/
lemma runLoop_errors_le (outcomes : List Bool) (st : SchedulerState) :
    st.errors_logged ≤ (runLoop outcomes st).errors_logged := by
  induction outcomes generalizing st with
  | nil => exact le_refl _
  | cons o rest ih =>
    simp only [runLoop]
    split
    · refine le_trans ?_ (ih _)
      simp only [schedulerStep]
      exact Nat.le_add_right _ _
    · exact le_refl _

/-- Backoff-sleep count is monotone along the loop. -/
lemma runLoop_sleeps_le (outcomes : List Bool) (st : SchedulerState) :
    st.backoff_sleeps ≤ (runLoop outcomes st).backoff_sleeps := by
  induction outcomes generalizing st with
  | nil => exact le_refl _
  | cons o rest ih =>
    simp only [runLoop]
    split
    · exact le_trans (by simp [schedulerStep]) (ih _)
    · exact le_refl _

/-- C9: if the scraping job raises an unhandled exception on three
consecutive invocations, the scheduler's running flag remains true (the loop
body never clears it), each error is logged and followed by a backoff sleep
rather than termination, and a fourth invocation of the job is issued —
no failing cycle ever transitions the scheduler out of Running. -/
theorem scheduler_survives_failing_cycles :
    (∀ (outcomes : List Bool) (st : SchedulerState),
      (runLoop outcomes st).is_running = st.is_running) ∧
    (∀ (o4 : Bool) (rest : List Bool),
      (runLoop (true :: true :: true :: o4 :: rest) initialSchedulerState).is_running
        = true ∧
      4 ≤ (runLoop (true :: true :: true :: o4 :: rest)
            initialSchedulerState).invocations ∧
      3 ≤ (runLoop (true :: true :: true :: o4 :: rest)
            initialSchedulerState).errors_logged ∧
      3 ≤ (runLoop (true :: true :: true :: o4 :: rest)
            initialSchedulerState).backoff_sleeps) := by
  constructor
  · exact runLoop_is_running
  · intro o4 rest
    have hstep : runLoop (true :: true :: true :: o4 :: rest) initialSchedulerState =
        runLoop rest (schedulerStep o4 (schedulerStep true (schedulerStep true
          (schedulerStep true initialSchedulerState)))) := by
      simp [runLoop, schedulerStep, initialSchedulerState]
    refine ⟨?_, ?_, ?_, ?_⟩
    · rw [hstep, runLoop_is_running]
      rfl
    · rw [hstep]
      refine le_trans ?_ (runLoop_invocations_le _ _)
      simp [schedulerStep, initialSchedulerState]
    · rw [hstep]
      refine le_trans ?_ (runLoop_errors_le _ _)
      simp only [schedulerStep, initialSchedulerState]
      rcases o4 with _ | _ <;> simp
    · rw [hstep]
      refine le_trans ?_ (runLoop_sleeps_le _ _)
      simp [schedulerStep, initialSchedulerState]

/-- Any article returned by `scrape_article` passed validation: non-empty
title and at least 100 characters of content. -/
lemma scrape_article_some_elim (fetchExtract : String → Option ArticleData)
    (url : String) (a : ArticleData)
    (h : scrape_article fetchExtract url = some a) :
    a.title ≠ "" ∧ 100 ≤ a.content.length := by
  simp only [scrape_article] at h
  split at h
  · exact absurd h (by simp)
  · split at h
    · exact absurd h (by simp)
    · split at h
      · exact absurd h (by simp)
      · rename_i d0 heq h12 hlen
        have ha := Option.some.inj h
        subst ha
        constructor
        · intro ht
          exact h12 (Or.inl ht)
        · show 100 ≤ d0.content.length
          omega

/-- C1: every record the ingestion pipeline (`scrape_article` feeding
`save_articles_to_db`) passes to the persistence gateway has a non-empty
title and content at least 100 characters long; and `scrape_article`
returns `None` — so the record never reaches `add_article` — whenever the
extracted title is empty, the content is empty, or the content is shorter
than 100 characters. -/
theorem pipeline_record_validity :
    (∀ (listing : Option (List String))
      (fetchExtract : String → Option ArticleData)
      (max_articles : Nat) (a : ArticleData),
      a ∈ scrape_latest_articles listing fetchExtract max_articles →
      a.title ≠ "" ∧ 100 ≤ a.content.length) ∧
    (∀ (fetchExtract : String → Option ArticleData) (url : String)
      (d0 : ArticleData),
      fetchExtract url = some d0 →
      (d0.title = "" ∨ d0.content = "" ∨ d0.content.length < 100) →
      scrape_article fetchExtract url = none) := by
  constructor
  · intro listing fetchExtract max_articles a hmem
    rcases listing with _ | links
    · simp [scrape_latest_articles] at hmem
    · simp only [scrape_latest_articles, List.mem_filterMap] at hmem
      rcases hmem with ⟨url, _, hsome⟩
      exact scrape_article_some_elim fetchExtract url a hsome
  · intro fetchExtract url d0 hfe hbad
    simp only [scrape_article, hfe]
    rcases hbad with h1 | h2 | h3
    · simp [h1]
    · simp [h2]
    · by_cases h12 : d0.title = "" ∨ d0.content = ""
      · rw [if_pos h12]
      · rw [if_neg h12, if_pos h3]

/-- A 100-character content string for witnesses. -/
def longContent : String := String.mk (List.replicate 100 'x')

/-- A fetch environment returning one fixed valid article. -/
def fetchEnvW : String → Option ArticleData := fun _ =>
  some { title := "T", content := longContent, category := "General",
         url := "", published_date := none }

/-- The article that environment yields after the pipeline sets its url. -/
def articleW : ArticleData :=
  { title := "T", content := longContent, category := "General",
    url := "u", published_date := none }

/-- Witness for `pipeline_record_validity`: a concrete article produced by
the pipeline, with the membership hypothesis discharged by evaluation. -/
theorem pipeline_record_validity_witness :
    articleW ∈ scrape_latest_articles (some ["u"]) fetchEnvW 50 ∧
    (articleW.title ≠ "" ∧ 100 ≤ articleW.content.length) :=
  ⟨by decide, pipeline_record_validity.1 (some ["u"]) fetchEnvW 50 articleW (by decide)⟩

/-! ## Link discovery (scraper.py: extract_article_links, is_valid_article_url) -/

/-- The parts of `urlparse(url)` that `is_valid_article_url` inspects. -/
structure ParsedUrl where
  netloc : String
  path : String
deriving DecidableEq

/-- The fixed denylist of non-article path prefixes from
`is_valid_article_url`. -/
def excluded_paths : List String :=
  ["/latest-news", "/home", "/opinion", "/business", "/sport", "/world",
   "/pakistan", "/images", "/videos", "/search", "/subscribe", "/advertise",
   "/contact", "/about", "/privacy", "/terms", "/cookies", "/rss", "/sitemap"]

/-- Python's substring operator `pattern in text` on character lists. -/
def listIsInfixOf (p : List Char) : List Char → Bool
  | [] => p.isEmpty
  | c :: rest => p.isPrefixOf (c :: rest) || listIsInfixOf p rest

/-- Python's substring operator on strings. -/
def strContains (text pattern : String) : Bool :=
  listIsInfixOf pattern.toList text.toList

/-- `DawnScraper.is_valid_article_url(url)`: the netloc must contain
`'dawn.com'`, the path must be non-empty and not just `'/'`, and the path
must not start with any denylisted prefix. -/
def is_valid_article_url (u : ParsedUrl) : Bool :=
  if !(strContains u.netloc "dawn.com") then false
  else if u.path == "" || u.path == "/" then false
  else if excluded_paths.any (fun p => p.toList.isPrefixOf u.path.toList) then false
  else true

/-- The selector-collection loop of `extract_article_links`: walk the raw
candidate links (already resolved against the base URL, in selector match
order) appending each one not yet collected. -/
def collectLinks (candidates : List ParsedUrl) : List ParsedUrl :=
  candidates.foldl (fun acc u => if u ∈ acc then acc else acc ++ [u]) []

/-- `DawnScraper.extract_article_links(soup)`: dedupe the raw candidates in
first-match insertion order, then filter by `is_valid_article_url`. -/
def extract_article_links (candidates : List ParsedUrl) : List ParsedUrl :=
  (collectLinks candidates).filter (fun u => is_valid_article_url u)

/-- Membership in the deduping fold. -/
lemma collectLinks_fold_mem (l : List ParsedUrl) :
    ∀ (acc : List ParsedUrl) (u : ParsedUrl),
      u ∈ l.foldl (fun acc u => if u ∈ acc then acc else acc ++ [u]) acc ↔
        u ∈ acc ∨ u ∈ l := by
  induction l with
  | nil => simp
  | cons x xs ih =>
    intro acc u
    rw [List.foldl_cons, ih]
    by_cases hx : x ∈ acc
    · rw [if_pos hx]
      constructor
      · intro h
        rcases h with h | h
        · exact Or.inl h
        · exact Or.inr (List.mem_cons_of_mem x h)
      · intro h
        rcases h with h | h
        · exact Or.inl h
        · rcases List.mem_cons.mp h with rfl | h
          · exact Or.inl hx
          · exact Or.inr h
    · rw [if_neg hx]
      simp only [List.mem_append, List.mem_singleton, List.mem_cons]
      tauto

/-- The deduping fold preserves freedom from duplicates. -/
lemma collectLinks_fold_nodup (l : List ParsedUrl) :
    ∀ (acc : List ParsedUrl), acc.Nodup →
      (l.foldl (fun acc u => if u ∈ acc then acc else acc ++ [u]) acc).Nodup := by
  induction l with
  | nil => intro acc h; exact h
  | cons x xs ih =>
    intro acc hacc
    rw [List.foldl_cons]
    by_cases hx : x ∈ acc
    · rw [if_pos hx]
      exact ih acc hacc
    · rw [if_neg hx]
      apply ih
      rw [List.nodup_append]
      refine ⟨hacc, List.nodup_singleton x, ?_⟩
      intro a ha hax
      rcases List.mem_singleton.mp hax with rfl
      exact hx ha

/-- Invariant of the deduping fold: with `full = p ++ l` and the accumulator
holding exactly the distinct URLs of the processed prefix `p`, in strictly
increasing order of first occurrence in `full`, the fold's final list keeps
that order. -/
lemma collectLinks_fold_pairwise (full : List ParsedUrl) :
    ∀ (l acc p : List ParsedUrl),
      full = p ++ l →
      (∀ u ∈ acc, u ∈ p) →
      (∀ u ∈ p, u ∈ acc) →
      (∀ u ∈ acc, full.indexOf u < p.length) →
      acc.Pairwise (fun u v => full.indexOf u < full.indexOf v) →
      (l.foldl (fun acc u => if u ∈ acc then acc else acc ++ [u]) acc).Pairwise
        (fun u v => full.indexOf u < full.indexOf v) := by
  intro l
  induction l with
  | nil =>
    intro acc p _ _ _ _ hpw
    exact hpw
  | cons x xs ih =>
    intro acc p hfull hap hpa hidx hpw
    rw [List.foldl_cons]
    by_cases hx : x ∈ acc
    · rw [if_pos hx]
      refine ih acc (p ++ [x]) ?_ ?_ ?_ ?_ hpw
      · rw [hfull]
        simp
      · intro u hu
        exact List.mem_append_left _ (hap u hu)
      · intro u hu
        rcases List.mem_append.mp hu with h | h
        · exact hpa u h
        · rcases List.mem_singleton.mp h with rfl
          exact hx
      · intro u hu
        have := hidx u hu
        simp only [List.length_append, List.length_singleton]
        omega
    · rw [if_neg hx]
      have hxnp : x ∉ p := fun hc => hx (hpa x hc)
      have hxidx : full.indexOf x = p.length := by
        rw [hfull, List.indexOf_append_of_not_mem hxnp, List.indexOf_cons_self]
        omega
      refine ih (acc ++ [x]) (p ++ [x]) ?_ ?_ ?_ ?_ ?_
      · rw [hfull]
        simp
      · intro u hu
        rcases List.mem_append.mp hu with h | h
        · exact List.mem_append_left _ (hap u h)
        · exact List.mem_append_right _ h
      · intro u hu
        rcases List.mem_append.mp hu with h | h
        · exact List.mem_append_left _ (hpa u h)
        · exact List.mem_append_right _ h
      · intro u hu
        simp only [List.length_append, List.length_singleton]
        rcases List.mem_append.mp hu with h | h
        · have := hidx u h
          omega
        · rcases List.mem_singleton.mp h with rfl
          omega
      · rw [List.pairwise_append]
        refine ⟨hpw, by simp, ?_⟩
        intro u hu v hv
        rcases List.mem_singleton.mp hv with rfl
        have := hidx u hu
        omega

/-- The collected links appear in strictly increasing order of their first
occurrence among the raw candidates. -/
lemma collectLinks_pairwise (candidates : List ParsedUrl) :
    (collectLinks candidates).Pairwise
      (fun u v => candidates.indexOf u < candidates.indexOf v) := by
  unfold collectLinks
  exact collectLinks_fold_pairwise candidates candidates [] [] rfl
    (by simp) (by simp) (by simp) List.Pairwise.nil

/-- C6: the discovered link list has no duplicate URLs; every discovered URL
satisfies the validity predicate (same domain, non-root path, no denylisted
path prefix); any candidate with a denylisted path prefix is excluded; each
valid candidate appears exactly once, however many selectors matched it; and
the list presents the URLs in first-match insertion order — pairwise, an
earlier entry's first occurrence among the raw candidates strictly precedes
a later entry's. -/
theorem extract_article_links_spec (candidates : List ParsedUrl) :
    (extract_article_links candidates).Nodup ∧
    (∀ u ∈ extract_article_links candidates, is_valid_article_url u = true) ∧
    (∀ u ∈ candidates, is_valid_article_url u = true →
      (extract_article_links candidates).count u = 1) ∧
    (∀ u ∈ candidates,
      excluded_paths.any (fun p => p.toList.isPrefixOf u.path.toList) = true →
      u ∉ extract_article_links candidates) ∧
    (extract_article_links candidates).Pairwise
      (fun u v => candidates.indexOf u < candidates.indexOf v) := by
  have hnodup : (extract_article_links candidates).Nodup := by
    apply List.Nodup.filter
    exact collectLinks_fold_nodup candidates [] List.nodup_nil
  refine ⟨hnodup, ?_, ?_, ?_, ?_⟩
  · intro u hu
    exact (List.mem_filter.mp hu).2
  · intro u hu hvalid
    have hmem : u ∈ extract_article_links candidates := by
      rw [extract_article_links, List.mem_filter]
      refine ⟨?_, hvalid⟩
      rw [collectLinks, collectLinks_fold_mem]
      exact Or.inr hu
    have hle : (extract_article_links candidates).count u ≤ 1 :=
      List.nodup_iff_count_le_one.mp hnodup u
    have hge : 1 ≤ (extract_article_links candidates).count u :=
      List.count_pos_iff.mpr hmem
    omega
  · intro u _ hany hmem
    have hvalid : is_valid_article_url u = true := (List.mem_filter.mp hmem).2
    have hfalse : is_valid_article_url u = false := by
      simp only [is_valid_article_url]
      simp only [List.any_eq_true] at hany
      rcases hany with ⟨p, hp, hpref⟩
      simp [is_valid_article_url]
      intro _ _ _
      exact ⟨p, hp, List.isPrefixOf_iff_prefix.mp hpref⟩
    rw [hvalid] at hfalse
    exact absurd hfalse (by simp)
  · exact (collectLinks_pairwise candidates).sublist
      (List.filter_sublist (collectLinks candidates))

/-- A valid article link on the site. -/
def urlGood : ParsedUrl := { netloc := "www.dawn.com", path := "/news/1234567" }

/-- A denylisted same-domain link. -/
def urlAbout : ParsedUrl := { netloc := "www.dawn.com", path := "/about" }

/-- Witness for `extract_article_links_spec`: with the valid link matched by
two selectors and a denylisted link present, the valid link is kept exactly
once and the denylisted one is excluded. -/
theorem extract_article_links_spec_witness :
    (extract_article_links [urlGood, urlGood, urlAbout]).count urlGood = 1 ∧
    urlAbout ∉ extract_article_links [urlGood, urlGood, urlAbout] :=
  ⟨(extract_article_links_spec [urlGood, urlGood, urlAbout]).2.2.1 urlGood
      (by decide) (by decide),
   (extract_article_links_spec [urlGood, urlGood, urlAbout]).2.2.2.1 urlAbout
      (by decide) (by decide)⟩

/-! ## Classifier (scraper.py: CATEGORY_KEYWORDS, categorize_article) -/

/-- The fixed category lexicon, in definition order. -/
def CATEGORY_KEYWORDS : List (String × List String) :=
  [("Pakistan", ["pakistan", "pakistani", "islamabad", "karachi", "lahore",
     "punjab", "sindh", "balochistan", "kpk"]),
   ("World", ["world", "international", "global", "china", "india", "america",
     "europe", "afghanistan", "iran"]),
   ("Business", ["business", "economy", "economic", "market", "trade",
     "finance", "bank", "rupee", "dollar", "inflation"]),
   ("Sports", ["sports", "cricket", "football", "hockey", "tennis", "olympics",
     "asia cup", "world cup", "match"]),
   ("Technology", ["technology", "tech", "digital", "ai",
     "artificial intelligence", "cyber", "internet", "social media"]),
   ("Health", ["health", "medical", "doctor", "hospital", "vaccine", "covid",
     "disease", "treatment"]),
   ("Politics", ["politics", "political", "government", "minister",
     "parliament", "election", "vote", "democracy"]),
   ("Crime", ["crime", "criminal", "police", "court", "jail", "arrest",
     "murder", "theft", "fraud"]),
   ("Education", ["education", "school", "university", "student", "teacher",
     "exam", "degree", "college"]),
   ("Entertainment", ["entertainment", "movie", "music", "celebrity", "actor",
     "singer", "film", "show"])]

/-- Python's `str.lower()`, character by character (the inputs scraped here
are ASCII; `String.toLower` itself is extensionally the same function). -/
def strToLower (s : String) : String := ⟨s.data.map Char.toLower⟩

/-- `sum(1 for keyword in keywords if keyword in text)`: the number of
keywords of a category occurring as substrings of the text. -/
def keywordScore (text : String) (keywords : List String) : Nat :=
  (keywords.filter (fun k => strContains text k)).length

/-- The category/score pairs in lexicon definition order (the insertion
order of Python's `category_scores` dict before its `> 0` filter). -/
def scoreList (text : String) : List (String × Nat) :=
  CATEGORY_KEYWORDS.map (fun p => (p.1, keywordScore text p.2))

/-- The scanning phase of Python's `max(d, key=d.get)`: keep the current
best key, replacing it only on a strictly greater score, so the
first-encountered key among tied maxima wins. -/
def pyMaxGo (l : List (String × Nat)) (c : String) (s : Nat) : String :=
  match l with
  | [] => c
  | (c2, s2) :: rest => if s < s2 then pyMaxGo rest c2 s2 else pyMaxGo rest c s

/-- Python's `max(d, key=d.get)` over the insertion-ordered dict, `none` on
an empty dict. -/
def pyMaxKey : List (String × Nat) → Option String
  | [] => none
  | (c, s) :: rest => some (pyMaxGo rest c s)

/-- `DawnScraper.categorize_article(title, content)`: lower-case the
concatenation, score every category, keep the positive scores (dict
insertion order), and take `max(category_scores, key=category_scores.get)`,
falling back to `'General'` when the dict is empty. -/
def categorize_article (title content : String) : String :=
  let text := strToLower (title ++ " " ++ content)
  let category_scores := (scoreList text).filter (fun p => decide (0 < p.2))
  match pyMaxKey category_scores with
  | some c => c
  | none => "General"

/-- The maximum score over a score list (0 when empty). -/
def maxScore (l : List (String × Nat)) : Nat :=
  l.foldr (fun p m => max p.2 m) 0

/-- The classifier as the spec words it (§4.4): the category with the
strictly highest keyword count, ties broken by lexicon definition order
(first-defined wins), and the sentinel `'General'` when every category
scores zero. -/
def classify_spec (title content : String) : String :=
  let text := strToLower (title ++ " " ++ content)
  let scores := scoreList text
  if maxScore scores = 0 then "General"
  else
    match scores.find? (fun p => p.2 == maxScore scores) with
    | some p => p.1
    | none => "General"

lemma maxScore_cons (p : String × Nat) (l : List (String × Nat)) :
    maxScore (p :: l) = max p.2 (maxScore l) := rfl

/-- If no later score strictly beats the current one, the scan keeps it. -/
lemma pyMaxGo_of_le (l : List (String × Nat)) :
    ∀ (c : String) (s : Nat), maxScore l ≤ s → pyMaxGo l c s = c := by
  induction l with
  | nil => intro c s _; rfl
  | cons x rest ih =>
    intro c s h
    rcases x with ⟨c2, s2⟩
    rw [maxScore_cons] at h
    simp only [pyMaxGo]
    rw [if_neg (by omega : ¬ s < s2)]
    exact ih c s (by omega)

/-- If some later score strictly beats the current one, the scan returns the
first entry attaining the list's maximum. -/
lemma pyMaxGo_of_gt (l : List (String × Nat)) :
    ∀ (c : String) (s : Nat), s < maxScore l →
      ∃ p, l.find? (fun q => q.2 == maxScore l) = some p ∧ pyMaxGo l c s = p.1 := by
  induction l with
  | nil =>
    intro c s h
    simp [maxScore] at h
  | cons x rest ih =>
    intro c s h
    rcases x with ⟨c2, s2⟩
    rw [maxScore_cons] at h
    by_cases h1 : maxScore rest ≤ s2
    · have hmax : maxScore ((c2, s2) :: rest) = s2 := by
        rw [maxScore_cons]
        omega
      have hs : s < s2 := by omega
      refine ⟨(c2, s2), ?_, ?_⟩
      · rw [List.find?_cons_of_pos]
        simp [hmax]
      · simp only [pyMaxGo]
        rw [if_pos hs]
        exact pyMaxGo_of_le rest c2 s2 h1
    · have hmax : maxScore ((c2, s2) :: rest) = maxScore rest := by
        rw [maxScore_cons]
        omega
      have hhead : (((c2, s2) : String × Nat).2 == maxScore ((c2, s2) :: rest)) = false := by
        simp [hmax]
        omega
      rw [hmax]
      by_cases hs : s < s2
      · rcases ih c2 s2 (by omega) with ⟨p, hfind, hgo⟩
        refine ⟨p, ?_, ?_⟩
        · rw [List.find?_cons_of_neg]
          · exact hfind
          · rw [← hmax]
            simp only [hhead]
            exact Bool.false_ne_true
        · simp only [pyMaxGo]
          rw [if_pos hs]
          exact hgo
      · rcases ih c s (by omega) with ⟨p, hfind, hgo⟩
        refine ⟨p, ?_, ?_⟩
        · rw [List.find?_cons_of_neg]
          · exact hfind
          · rw [← hmax]
            simp only [hhead]
            exact Bool.false_ne_true
        · simp only [pyMaxGo]
          rw [if_neg hs]
          exact hgo

/-- On a non-empty score list, `pyMaxKey` returns the first entry attaining
the maximum. -/
lemma pyMaxKey_find (l : List (String × Nat)) (hl : l ≠ []) :
    ∃ p, l.find? (fun q => q.2 == maxScore l) = some p ∧ pyMaxKey l = some p.1 := by
  rcases l with _ | ⟨⟨c, s⟩, rest⟩
  · exact absurd rfl hl
  · by_cases h1 : maxScore rest ≤ s
    · have hmax : maxScore ((c, s) :: rest) = s := by
        rw [maxScore_cons]
        omega
      refine ⟨(c, s), ?_, ?_⟩
      · rw [List.find?_cons_of_pos]
        simp [hmax]
      · simp only [pyMaxKey]
        rw [pyMaxGo_of_le rest c s h1]
    · have hmax : maxScore ((c, s) :: rest) = maxScore rest := by
        rw [maxScore_cons]
        omega
      rcases pyMaxGo_of_gt rest c s (by omega) with ⟨p, hfind, hgo⟩
      refine ⟨p, ?_, ?_⟩
      · rw [List.find?_cons_of_neg]
        · rw [hmax]
          exact hfind
        · intro hcon
          rw [hmax] at hcon
          simp at hcon
          omega
      · simp only [pyMaxKey]
        rw [hgo]

/-- Filtering with a weaker predicate does not change `find?` results for a
stronger one. -/
lemma find?_filter_of_imp (l : List (String × Nat)) (q r : (String × Nat) → Bool)
    (h : ∀ x, q x = true → r x = true) : (l.filter r).find? q = l.find? q := by
  induction l with
  | nil => rfl
  | cons x xs ih =>
    by_cases hr : r x = true
    · rw [List.filter_cons_of_pos hr]
      by_cases hq : q x = true
      · rw [List.find?_cons_of_pos _ hq, List.find?_cons_of_pos _ hq]
      · rw [List.find?_cons_of_neg _ (by simp [hq]),
          List.find?_cons_of_neg _ (by simp [hq])]
        exact ih
    · have hq : ¬ q x = true := fun hcon => hr (h x hcon)
      rw [List.filter_cons_of_neg (by simp [hr]), ih,
        List.find?_cons_of_neg _ (by simp [hq])]

/-- Dropping the zero scores does not change the maximum score. -/
lemma maxScore_filter (l : List (String × Nat)) :
    maxScore (l.filter (fun p => decide (0 < p.2))) = maxScore l := by
  induction l with
  | nil => rfl
  | cons x xs ih =>
    by_cases hx : 0 < x.2
    · rw [List.filter_cons_of_pos (by simp [hx]), maxScore_cons, maxScore_cons, ih]
    · rw [List.filter_cons_of_neg (by simp [hx]), maxScore_cons, ih]
      omega

/-- If the maximum score is zero, the positive-score filter is empty. -/
lemma filter_eq_nil_of_maxScore_zero (l : List (String × Nat))
    (h : maxScore l = 0) : l.filter (fun p => decide (0 < p.2)) = [] := by
  induction l with
  | nil => rfl
  | cons x xs ih =>
    rw [maxScore_cons] at h
    rw [List.filter_cons_of_neg (by simp; omega)]
    exact ih (by omega)

/-- C4: `categorize_article` is a pure function of its two string inputs and
computes exactly what the spec describes: lower-case the concatenation of
title and content, count for each category how many of its keywords occur
as substrings, return the category with the strictly highest count, break
ties by lexicon definition order (first-defined wins), and return the
sentinel `'General'` when every category scores zero. -/
theorem categorize_article_eq_spec (title content : String) :
    categorize_article title content = classify_spec title content := by
  simp only [categorize_article, classify_spec]
  by_cases hm : maxScore (scoreList (strToLower (title ++ " " ++ content))) = 0
  · rw [filter_eq_nil_of_maxScore_zero _ hm, if_pos hm]
    rfl
  · rw [if_neg hm]
    have hne : (scoreList (strToLower (title ++ " " ++ content))).filter
        (fun p => decide (0 < p.2)) ≠ [] := by
      intro hemp
      have hmf := maxScore_filter (scoreList (strToLower (title ++ " " ++ content)))
      rw [hemp] at hmf
      exact hm (by rw [← hmf]; rfl)
    rcases pyMaxKey_find _ hne with ⟨p, hfind, hkey⟩
    rw [hkey]
    rw [maxScore_filter] at hfind
    rw [find?_filter_of_imp _ _ _ ?_] at hfind
    · rw [hfind]
    · intro x hx
      simp only [beq_iff_eq] at hx
      simp only [decide_eq_true_eq]
      omega

/-! ## Date parser (scraper.py: parse_date)

`datetime.strptime` is modelled per CPython's `_strptime`: each format is a
sequence of field matchers — numeric fields match a greedy run of digits
(`%d`/`%m`/`%H`/`%I`/`%M`/`%S` up to two, `%Y` exactly four, as in CPython's
TimeRE), month names match the locale's abbreviated/full English names,
`%p` matches AM/PM, literals match exactly, and the whole string must be
consumed; field values are then range-validated exactly as the `datetime`
constructor does (a failure there is the `ValueError` the code catches).
On the zero-padded strings `strftime` produces, greedy digit matching
coincides with the backtracking regex CPython builds.  `%Y` renders
zero-padded to four digits, as documented for `strftime`. -/

/-- The fields of a Python `datetime`. -/
structure PyDateTime where
  year : Nat
  month : Nat
  day : Nat
  hour : Nat
  minute : Nat
  second : Nat
deriving DecidableEq

/-- Gregorian leap year, as Python's `calendar.isleap`. -/
def isLeapYear (y : Nat) : Bool :=
  (y % 4 == 0 && y % 100 != 0) || y % 400 == 0

/-- Days in a month, as validated by the `datetime` constructor. -/
def daysInMonth (y m : Nat) : Nat :=
  if m = 2 then (if isLeapYear y then 29 else 28)
  else if m = 4 ∨ m = 6 ∨ m = 9 ∨ m = 11 then 30
  else 31

/-- The argument ranges accepted by Python's `datetime(y, m, d, h, mi, s)`. -/
def ValidDT (t : PyDateTime) : Prop :=
  1 ≤ t.year ∧ t.year ≤ 9999 ∧ 1 ≤ t.month ∧ t.month ≤ 12 ∧
  1 ≤ t.day ∧ t.day ≤ daysInMonth t.year t.month ∧
  t.hour ≤ 23 ∧ t.minute ≤ 59 ∧ t.second ≤ 59

instance (t : PyDateTime) : Decidable (ValidDT t) := by
  unfold ValidDT
  exact inferInstance

/-- `datetime(y, m, d, h, mi, s)`: `some` on valid arguments, `none` for the
`ValueError` case. -/
def mkDateTime? (y m d h mi s : Nat) : Option PyDateTime :=
  if 1 ≤ y ∧ y ≤ 9999 ∧ 1 ≤ m ∧ m ≤ 12 ∧ 1 ≤ d ∧ d ≤ daysInMonth y m ∧
      h ≤ 23 ∧ mi ≤ 59 ∧ s ≤ 59
  then some ⟨y, m, d, h, mi, s⟩ else none

/-- The decimal digit characters. -/
def digitChar (n : Nat) : Char :=
  match n with
  | 0 => '0' | 1 => '1' | 2 => '2' | 3 => '3' | 4 => '4'
  | 5 => '5' | 6 => '6' | 7 => '7' | 8 => '8' | 9 => '9'
  | _ => '*'

/-- ASCII digit test. -/
def isDigitChar (c : Char) : Bool := '0' ≤ c && c ≤ '9'

/-- Zero-padded two-digit rendering (`%d`, `%m`, `%H`, `%I`, `%M`, `%S`). -/
def pad2 (n : Nat) : List Char := [digitChar (n / 10), digitChar (n % 10)]

/-- Zero-padded four-digit rendering (`%Y`). -/
def pad4 (n : Nat) : List Char :=
  [digitChar (n / 1000), digitChar (n / 100 % 10),
   digitChar (n / 10 % 10), digitChar (n % 10)]

/-- Take up to `k` leading digits. -/
def takeDigits : Nat → List Char → List Char × List Char
  | 0, cs => ([], cs)
  | _ + 1, [] => ([], [])
  | k + 1, c :: cs =>
    if isDigitChar c then
      let r := takeDigits k cs
      (c :: r.1, r.2)
    else ([], c :: cs)

/-- The numeric value of a digit run. -/
def natOfDigits (ds : List Char) : Nat :=
  ds.foldl (fun a c => a * 10 + (c.toNat - 48)) 0

/-- A 1-to-`maxw`-digit numeric field matcher. -/
def parseNum (maxw : Nat) (cs : List Char) : Option (Nat × List Char) :=
  let r := takeDigits maxw cs
  if r.1.isEmpty then none else some (natOfDigits r.1, r.2)

/-- The exactly-four-digit `%Y` matcher. -/
def parseNum4 (cs : List Char) : Option (Nat × List Char) :=
  let r := takeDigits 4 cs
  if r.1.length == 4 then some (natOfDigits r.1, r.2) else none

/-- Match one literal character. -/
def expect (c : Char) : List Char → Option (List Char)
  | [] => none
  | c2 :: cs => if c2 = c then some cs else none

/-- `%b` month names (C locale). -/
def monthAbbr (m : Nat) : List Char :=
  match m with
  | 1 => ['J', 'a', 'n'] | 2 => ['F', 'e', 'b'] | 3 => ['M', 'a', 'r']
  | 4 => ['A', 'p', 'r'] | 5 => ['M', 'a', 'y'] | 6 => ['J', 'u', 'n']
  | 7 => ['J', 'u', 'l'] | 8 => ['A', 'u', 'g'] | 9 => ['S', 'e', 'p']
  | 10 => ['O', 'c', 't'] | 11 => ['N', 'o', 'v'] | 12 => ['D', 'e', 'c']
  | _ => []

/-- What `%B` appends after the first three letters of the month name. -/
def monthTail (m : Nat) : List Char :=
  match m with
  | 1 => ['u', 'a', 'r', 'y'] | 2 => ['r', 'u', 'a', 'r', 'y'] | 3 => ['c', 'h']
  | 4 => ['i', 'l'] | 5 => [] | 6 => ['e'] | 7 => ['y']
  | 8 => ['u', 's', 't'] | 9 => ['t', 'e', 'm', 'b', 'e', 'r']
  | 10 => ['o', 'b', 'e', 'r'] | 11 => ['e', 'm', 'b', 'e', 'r']
  | 12 => ['e', 'm', 'b', 'e', 'r']
  | _ => []

/-- `%B` month names (C locale). -/
def monthFull (m : Nat) : List Char :=
  match m with
  | 1 => ['J', 'a', 'n', 'u', 'a', 'r', 'y']
  | 2 => ['F', 'e', 'b', 'r', 'u', 'a', 'r', 'y']
  | 3 => ['M', 'a', 'r', 'c', 'h']
  | 4 => ['A', 'p', 'r', 'i', 'l']
  | 5 => ['M', 'a', 'y']
  | 6 => ['J', 'u', 'n', 'e']
  | 7 => ['J', 'u', 'l', 'y']
  | 8 => ['A', 'u', 'g', 'u', 's', 't']
  | 9 => ['S', 'e', 'p', 't', 'e', 'm', 'b', 'e', 'r']
  | 10 => ['O', 'c', 't', 'o', 'b', 'e', 'r']
  | 11 => ['N', 'o', 'v', 'e', 'm', 'b', 'e', 'r']
  | 12 => ['D', 'e', 'c', 'e', 'm', 'b', 'e', 'r']
  | _ => []

/-- Name-table matcher: first table entry whose name is a prefix wins. -/
def parseMonthFrom (tbl : List (Nat × List Char)) (cs : List Char) :
    Option (Nat × List Char) :=
  match tbl with
  | [] => none
  | (m, name) :: rest =>
    if name.isPrefixOf cs then some (m, cs.drop name.length)
    else parseMonthFrom rest cs

/-- The `%b` matcher. -/
def parseMonthAbbr (cs : List Char) : Option (Nat × List Char) :=
  parseMonthFrom
    [(1, monthAbbr 1), (2, monthAbbr 2), (3, monthAbbr 3), (4, monthAbbr 4),
     (5, monthAbbr 5), (6, monthAbbr 6), (7, monthAbbr 7), (8, monthAbbr 8),
     (9, monthAbbr 9), (10, monthAbbr 10), (11, monthAbbr 11),
     (12, monthAbbr 12)] cs

/-- The `%B` matcher. -/
def parseMonthFull (cs : List Char) : Option (Nat × List Char) :=
  parseMonthFrom
    [(1, monthFull 1), (2, monthFull 2), (3, monthFull 3), (4, monthFull 4),
     (5, monthFull 5), (6, monthFull 6), (7, monthFull 7), (8, monthFull 8),
     (9, monthFull 9), (10, monthFull 10), (11, monthFull 11),
     (12, monthFull 12)] cs

/-- The `%p` matcher (`false` = AM, `true` = PM). -/
def parseAmPm : List Char → Option (Bool × List Char)
  | 'A' :: 'M' :: cs => some (false, cs)
  | 'P' :: 'M' :: cs => some (true, cs)
  | _ => none

/-- CPython's `%I`+`%p` to 24h conversion: 12 AM is hour 0, 12 PM stays 12,
other PM hours gain 12. -/
def hourFrom12 (i : Nat) (isPM : Bool) : Nat :=
  if isPM then (if i == 12 then 12 else i + 12)
  else (if i == 12 then 0 else i)

/-- `strftime('%I')`: hour 0 renders as 12, 13..23 lose 12. -/
def hr12 (h : Nat) : Nat := if h % 12 == 0 then 12 else h % 12

/-- `strftime('%p')`. -/
def ampmChars (h : Nat) : List Char := if 12 ≤ h then ['P', 'M'] else ['A', 'M']

/-- `strptime(s, '%d %b, %Y %I:%M%p')`. -/
def parseFmt1 (cs : List Char) : Option PyDateTime := do
  let (d, cs) ← parseNum 2 cs
  let cs ← expect ' ' cs
  let (m, cs) ← parseMonthAbbr cs
  let cs ← expect ',' cs
  let cs ← expect ' ' cs
  let (y, cs) ← parseNum4 cs
  let cs ← expect ' ' cs
  let (i, cs) ← parseNum 2 cs
  let cs ← expect ':' cs
  let (mi, cs) ← parseNum 2 cs
  let (p, cs) ← parseAmPm cs
  if cs.isEmpty then mkDateTime? y m d (hourFrom12 i p) mi 0 else none

/-- `strptime(s, '%d %B, %Y %I:%M%p')`. -/
def parseFmt2 (cs : List Char) : Option PyDateTime := do
  let (d, cs) ← parseNum 2 cs
  let cs ← expect ' ' cs
  let (m, cs) ← parseMonthFull cs
  let cs ← expect ',' cs
  let cs ← expect ' ' cs
  let (y, cs) ← parseNum4 cs
  let cs ← expect ' ' cs
  let (i, cs) ← parseNum 2 cs
  let cs ← expect ':' cs
  let (mi, cs) ← parseNum 2 cs
  let (p, cs) ← parseAmPm cs
  if cs.isEmpty then mkDateTime? y m d (hourFrom12 i p) mi 0 else none

/-- `strptime(s, '%d %b %Y %I:%M%p')`. -/
def parseFmt3 (cs : List Char) : Option PyDateTime := do
  let (d, cs) ← parseNum 2 cs
  let cs ← expect ' ' cs
  let (m, cs) ← parseMonthAbbr cs
  let cs ← expect ' ' cs
  let (y, cs) ← parseNum4 cs
  let cs ← expect ' ' cs
  let (i, cs) ← parseNum 2 cs
  let cs ← expect ':' cs
  let (mi, cs) ← parseNum 2 cs
  let (p, cs) ← parseAmPm cs
  if cs.isEmpty then mkDateTime? y m d (hourFrom12 i p) mi 0 else none

/-- `strptime(s, '%d %B %Y %I:%M%p')`. -/
def parseFmt4 (cs : List Char) : Option PyDateTime := do
  let (d, cs) ← parseNum 2 cs
  let cs ← expect ' ' cs
  let (m, cs) ← parseMonthFull cs
  let cs ← expect ' ' cs
  let (y, cs) ← parseNum4 cs
  let cs ← expect ' ' cs
  let (i, cs) ← parseNum 2 cs
  let cs ← expect ':' cs
  let (mi, cs) ← parseNum 2 cs
  let (p, cs) ← parseAmPm cs
  if cs.isEmpty then mkDateTime? y m d (hourFrom12 i p) mi 0 else none

/-- `strptime(s, '%Y-%m-%d %H:%M:%S')`. -/
def parseFmt5 (cs : List Char) : Option PyDateTime := do
  let (y, cs) ← parseNum4 cs
  let cs ← expect '-' cs
  let (m, cs) ← parseNum 2 cs
  let cs ← expect '-' cs
  let (d, cs) ← parseNum 2 cs
  let cs ← expect ' ' cs
  let (h, cs) ← parseNum 2 cs
  let cs ← expect ':' cs
  let (mi, cs) ← parseNum 2 cs
  let cs ← expect ':' cs
  let (s, cs) ← parseNum 2 cs
  if cs.isEmpty then mkDateTime? y m d h mi s else none

/-- `strptime(s, '%d/%m/%Y %H:%M')`. -/
def parseFmt6 (cs : List Char) : Option PyDateTime := do
  let (d, cs) ← parseNum 2 cs
  let cs ← expect '/' cs
  let (m, cs) ← parseNum 2 cs
  let cs ← expect '/' cs
  let (y, cs) ← parseNum4 cs
  let cs ← expect ' ' cs
  let (h, cs) ← parseNum 2 cs
  let cs ← expect ':' cs
  let (mi, cs) ← parseNum 2 cs
  if cs.isEmpty then mkDateTime? y m d h mi 0 else none

/-- `strptime(s, '%d-%m-%Y %H:%M')`. -/
def parseFmt7 (cs : List Char) : Option PyDateTime := do
  let (d, cs) ← parseNum 2 cs
  let cs ← expect '-' cs
  let (m, cs) ← parseNum 2 cs
  let cs ← expect '-' cs
  let (y, cs) ← parseNum4 cs
  let cs ← expect ' ' cs
  let (h, cs) ← parseNum 2 cs
  let cs ← expect ':' cs
  let (mi, cs) ← parseNum 2 cs
  if cs.isEmpty then mkDateTime? y m d h mi 0 else none

/-- A slash-or-dash separator of the fallback regex. -/
def expectSep : List Char → Option (List Char)
  | [] => none
  | c :: cs => if c = '/' ∨ c = '-' then some cs else none

/-- One anchored attempt of the fallback pattern: one or two digits, a
slash-or-dash, one or two digits, a slash-or-dash, four digits — returning
day, month, year. -/
def fallbackPattern (cs : List Char) : Option (Nat × Nat × Nat) := do
  let (d, cs) ← parseNum 2 cs
  let cs ← expectSep cs
  let (m, cs) ← parseNum 2 cs
  let cs ← expectSep cs
  let r := takeDigits 4 cs
  if r.1.length == 4 then some (d, m, natOfDigits r.1) else none

/-- `re.search` of the fallback pattern: try each start position, then build
`datetime(year, month, day)` (whose `ValueError` the code turns into
`None`). -/
def scanFallback : List Char → Option PyDateTime
  | [] => none
  | c :: cs =>
    match fallbackPattern (c :: cs) with
    | some (d, m, y) => mkDateTime? y m d 0 0 0
    | none => scanFallback cs

/-- `DawnScraper.parse_date(date_text)`: try the seven fixed formats in
order, then the regex fallback, else `None`. -/
def parse_date_chars (cs : List Char) : Option PyDateTime :=
  match parseFmt1 cs with
  | some t => some t
  | none =>
  match parseFmt2 cs with
  | some t => some t
  | none =>
  match parseFmt3 cs with
  | some t => some t
  | none =>
  match parseFmt4 cs with
  | some t => some t
  | none =>
  match parseFmt5 cs with
  | some t => some t
  | none =>
  match parseFmt6 cs with
  | some t => some t
  | none =>
  match parseFmt7 cs with
  | some t => some t
  | none => scanFallback cs

/-- `parse_date` on a Lean string. -/
def parse_date (s : String) : Option PyDateTime := parse_date_chars s.data

/-- `strftime('%d %b, %Y %I:%M%p')`. -/
def render1 (t : PyDateTime) : List Char :=
  pad2 t.day ++ (' ' :: (monthAbbr t.month ++ (',' :: (' ' :: (pad4 t.year ++
    (' ' :: (pad2 (hr12 t.hour) ++ (':' :: (pad2 t.minute ++
      ampmChars t.hour)))))))))

/-- `strftime('%d %B, %Y %I:%M%p')`. -/
def render2 (t : PyDateTime) : List Char :=
  pad2 t.day ++ (' ' :: (monthFull t.month ++ (',' :: (' ' :: (pad4 t.year ++
    (' ' :: (pad2 (hr12 t.hour) ++ (':' :: (pad2 t.minute ++
      ampmChars t.hour)))))))))

/-- `strftime('%d %b %Y %I:%M%p')`. -/
def render3 (t : PyDateTime) : List Char :=
  pad2 t.day ++ (' ' :: (monthAbbr t.month ++ (' ' :: (pad4 t.year ++
    (' ' :: (pad2 (hr12 t.hour) ++ (':' :: (pad2 t.minute ++
      ampmChars t.hour))))))))

/-- `strftime('%d %B %Y %I:%M%p')`. -/
def render4 (t : PyDateTime) : List Char :=
  pad2 t.day ++ (' ' :: (monthFull t.month ++ (' ' :: (pad4 t.year ++
    (' ' :: (pad2 (hr12 t.hour) ++ (':' :: (pad2 t.minute ++
      ampmChars t.hour))))))))

/-- `strftime('%Y-%m-%d %H:%M:%S')`. -/
def render5 (t : PyDateTime) : List Char :=
  pad4 t.year ++ ('-' :: (pad2 t.month ++ ('-' :: (pad2 t.day ++
    (' ' :: (pad2 t.hour ++ (':' :: (pad2 t.minute ++ (':' ::
      pad2 t.second)))))))))

/-- `strftime('%d/%m/%Y %H:%M')`. -/
def render6 (t : PyDateTime) : List Char :=
  pad2 t.day ++ ('/' :: (pad2 t.month ++ ('/' :: (pad4 t.year ++
    (' ' :: (pad2 t.hour ++ (':' :: pad2 t.minute)))))))

/-- `strftime('%d-%m-%Y %H:%M')`. -/
def render7 (t : PyDateTime) : List Char :=
  pad2 t.day ++ ('-' :: (pad2 t.month ++ ('-' :: (pad4 t.year ++
    (' ' :: (pad2 t.hour ++ (':' :: pad2 t.minute)))))))

/-- Rendering a timestamp in the `k`-th of the parser's format patterns. -/
def renderFmt (k : Fin 7) (t : PyDateTime) : String :=
  match k with
  | 0 => ⟨render1 t⟩
  | 1 => ⟨render2 t⟩
  | 2 => ⟨render3 t⟩
  | 3 => ⟨render4 t⟩
  | 4 => ⟨render5 t⟩
  | 5 => ⟨render6 t⟩
  | 6 => ⟨render7 t⟩

/-! ### Digit-level lemmas -/

lemma digitChar_isDigit (k : Nat) (h : k < 10) : isDigitChar (digitChar k) = true := by
  interval_cases k <;> rfl

lemma digitChar_toNat (k : Nat) (h : k < 10) : (digitChar k).toNat = 48 + k := by
  interval_cases k <;> rfl

/-- Matching a non-digit literal against a digit character fails. -/
lemma expect_digitChar (c : Char) (k : Nat) (h : k < 10)
    (hc : isDigitChar c = false) (rest : List Char) :
    expect c (digitChar k :: rest) = none := by
  simp only [expect]
  rw [if_neg]
  intro heq
  rw [← heq, digitChar_isDigit k h] at hc
  simp at hc

lemma expect_cons_self (c : Char) (rest : List Char) :
    expect c (c :: rest) = some rest := by
  simp [expect]

lemma expect_cons_ne (c c2 : Char) (h : c2 ≠ c) (rest : List Char) :
    expect c (c2 :: rest) = none := by
  simp [expect, h]

lemma takeDigits_pad2 (n : Nat) (h : n < 100) (rest : List Char) :
    takeDigits 2 (pad2 n ++ rest) = (pad2 n, rest) := by
  have h1 := digitChar_isDigit (n / 10) (by omega)
  have h2 := digitChar_isDigit (n % 10) (by omega)
  simp [pad2, takeDigits, h1, h2]

lemma takeDigits_pad4 (y : Nat) (h : y < 10000) (rest : List Char) :
    takeDigits 4 (pad4 y ++ rest) = (pad4 y, rest) := by
  have h1 := digitChar_isDigit (y / 1000) (by omega)
  have h2 := digitChar_isDigit (y / 100 % 10) (by omega)
  have h3 := digitChar_isDigit (y / 10 % 10) (by omega)
  have h4 := digitChar_isDigit (y % 10) (by omega)
  simp [pad4, takeDigits, h1, h2, h3, h4]

lemma takeDigits2_pad4 (y : Nat) (h : y < 10000) (rest : List Char) :
    takeDigits 2 (pad4 y ++ rest) =
      ([digitChar (y / 1000), digitChar (y / 100 % 10)],
        digitChar (y / 10 % 10) :: digitChar (y % 10) :: rest) := by
  have h1 := digitChar_isDigit (y / 1000) (by omega)
  have h2 := digitChar_isDigit (y / 100 % 10) (by omega)
  simp [pad4, takeDigits, h1, h2]

lemma takeDigits4_pad2_stop (n : Nat) (h : n < 100) (c : Char)
    (hc : isDigitChar c = false) (rest : List Char) :
    takeDigits 4 (pad2 n ++ c :: rest) = (pad2 n, c :: rest) := by
  have h1 := digitChar_isDigit (n / 10) (by omega)
  have h2 := digitChar_isDigit (n % 10) (by omega)
  simp [pad2, takeDigits, h1, h2, hc]

lemma natOfDigits_pad2 (n : Nat) (h : n < 100) : natOfDigits (pad2 n) = n := by
  simp only [natOfDigits, pad2, List.foldl]
  rw [digitChar_toNat (n / 10) (by omega), digitChar_toNat (n % 10) (by omega)]
  omega

lemma natOfDigits_pad4 (y : Nat) (h : y < 10000) : natOfDigits (pad4 y) = y := by
  simp only [natOfDigits, pad4, List.foldl]
  rw [digitChar_toNat (y / 1000) (by omega), digitChar_toNat (y / 100 % 10) (by omega),
    digitChar_toNat (y / 10 % 10) (by omega), digitChar_toNat (y % 10) (by omega)]
  omega

lemma parseNum_pad2 (n : Nat) (h : n < 100) (rest : List Char) :
    parseNum 2 (pad2 n ++ rest) = some (n, rest) := by
  simp only [parseNum, takeDigits_pad2 n h rest, natOfDigits_pad2 n h]
  rfl

lemma parseNum4_pad4 (y : Nat) (h : y < 10000) (rest : List Char) :
    parseNum4 (pad4 y ++ rest) = some (y, rest) := by
  simp only [parseNum4, takeDigits_pad4 y h rest, natOfDigits_pad4 y h]
  rfl

lemma parseNum2_pad4 (y : Nat) (h : y < 10000) (rest : List Char) :
    parseNum 2 (pad4 y ++ rest) =
      some (y / 100, digitChar (y / 10 % 10) :: digitChar (y % 10) :: rest) := by
  have hv : natOfDigits [digitChar (y / 1000), digitChar (y / 100 % 10)] = y / 100 := by
    simp only [natOfDigits, List.foldl]
    rw [digitChar_toNat (y / 1000) (by omega), digitChar_toNat (y / 100 % 10) (by omega)]
    omega
  simp only [parseNum, takeDigits2_pad4 y h rest]
  simp [hv]

lemma parseNum4_pad2_stop (n : Nat) (h : n < 100) (c : Char)
    (hc : isDigitChar c = false) (rest : List Char) :
    parseNum4 (pad2 n ++ c :: rest) = none := by
  simp only [parseNum4, takeDigits4_pad2_stop n h c hc rest]
  simp [pad2]

/-! ### Month-name and AM/PM lemmas -/

lemma parseMonthAbbr_abbr (m : Nat) (h1 : 1 ≤ m) (h2 : m ≤ 12) (rest : List Char) :
    parseMonthAbbr (monthAbbr m ++ rest) = some (m, rest) := by
  interval_cases m <;>
    simp [parseMonthAbbr, parseMonthFrom, monthAbbr, List.isPrefixOf]

lemma parseMonthFull_full (m : Nat) (h1 : 1 ≤ m) (h2 : m ≤ 12) (rest : List Char) :
    parseMonthFull (monthFull m ++ rest) = some (m, rest) := by
  interval_cases m <;>
    simp [parseMonthFull, parseMonthFrom, monthFull, List.isPrefixOf]

lemma parseMonthAbbr_full (m : Nat) (h1 : 1 ≤ m) (h2 : m ≤ 12) (rest : List Char) :
    parseMonthAbbr (monthFull m ++ rest) = some (m, monthTail m ++ rest) := by
  interval_cases m <;>
    simp [parseMonthAbbr, parseMonthFrom, monthAbbr, monthFull, monthTail,
      List.isPrefixOf]

lemma parseMonthFull_abbr_space (m : Nat) (h1 : 1 ≤ m) (h2 : m ≤ 12) (h5 : m ≠ 5)
    (rest : List Char) :
    parseMonthFull (monthAbbr m ++ ' ' :: rest) = none := by
  interval_cases m <;> first
  | exact absurd rfl h5
  | simp [parseMonthFull, parseMonthFrom, monthAbbr, monthFull, List.isPrefixOf]

lemma expect_comma_monthTail (m : Nat) (h1 : 1 ≤ m) (h2 : m ≤ 12) (h5 : m ≠ 5)
    (rest : List Char) :
    expect ',' (monthTail m ++ rest) = none := by
  interval_cases m <;> first
  | exact absurd rfl h5
  | simp [expect, monthTail]

lemma expect_space_monthTail (m : Nat) (h1 : 1 ≤ m) (h2 : m ≤ 12) (h5 : m ≠ 5)
    (rest : List Char) :
    expect ' ' (monthTail m ++ rest) = none := by
  interval_cases m <;> first
  | exact absurd rfl h5
  | simp [expect, monthTail]

lemma parseAmPm_ampmChars (h : Nat) :
    parseAmPm (ampmChars h) = some (decide (12 ≤ h), []) := by
  by_cases hh : 12 ≤ h <;> simp [ampmChars, parseAmPm, hh]

lemma hr12_lt_100 (h : Nat) : hr12 h < 100 := by
  simp only [hr12]
  split
  · omega
  · omega

lemma hourFrom12_hr12 (h : Nat) (hle : h ≤ 23) :
    hourFrom12 (hr12 h) (decide (12 ≤ h)) = h := by
  interval_cases h <;> rfl

lemma hourFrom12_le (h : Nat) (hle : h ≤ 23) :
    hourFrom12 (hr12 h) (decide (12 ≤ h)) ≤ 23 := by
  rw [hourFrom12_hr12 h hle]
  exact hle

lemma mkDateTime?_valid (y m d hh mi s : Nat)
    (h : 1 ≤ y ∧ y ≤ 9999 ∧ 1 ≤ m ∧ m ≤ 12 ∧ 1 ≤ d ∧ d ≤ daysInMonth y m ∧
      hh ≤ 23 ∧ mi ≤ 59 ∧ s ≤ 59) :
    mkDateTime? y m d hh mi s = some ⟨y, m, d, hh, mi, s⟩ := by
  simp only [mkDateTime?]
  rw [if_pos h]

/-! ### Per-format behaviour on rendered strings -/

lemma daysInMonth_le (y m : Nat) : daysInMonth y m ≤ 31 := by
  simp only [daysInMonth]
  split
  · split <;> omega
  · split <;> omega

/-- `May` is the one month whose full name equals its abbreviation. -/
lemma parseMonthFull_abbr_space_may (rest : List Char) :
    parseMonthFull (monthAbbr 5 ++ ' ' :: rest) = some (5, ' ' :: rest) := by
  simp [parseMonthFull, parseMonthFrom, monthAbbr, monthFull, List.isPrefixOf]

lemma parseFmt1_render1 (t : PyDateTime) (h : ValidDT t) :
    parseFmt1 (render1 t) = some ⟨t.year, t.month, t.day, t.hour, t.minute, 0⟩ := by
  obtain ⟨h1, h2, h3, h4, h5, h6, h7, h8, h9⟩ := h
  have hd : t.day < 100 := by
    have := daysInMonth_le t.year t.month
    omega
  have e1 := parseNum_pad2 t.day hd
  have e2 := parseMonthAbbr_abbr t.month h3 h4
  have e3 := parseNum4_pad4 t.year (by omega)
  have e4 := parseNum_pad2 (hr12 t.hour) (hr12_lt_100 t.hour)
  have e5 := parseNum_pad2 t.minute (by omega)
  have e6 := parseAmPm_ampmChars t.hour
  have e7 := mkDateTime?_valid t.year t.month t.day
      (hourFrom12 (hr12 t.hour) (decide (12 ≤ t.hour))) t.minute 0
      ⟨h1, h2, h3, h4, h5, h6, hourFrom12_le t.hour h7, h8, by omega⟩
  simp only [parseFmt1, render1, e1, e2, e3, e4, e5, e6, e7, expect_cons_self,
    Option.bind_eq_bind, Option.some_bind, List.isEmpty_nil, if_true]
  rw [hourFrom12_hr12 t.hour h7]

lemma parseFmt2_render2 (t : PyDateTime) (h : ValidDT t) :
    parseFmt2 (render2 t) = some ⟨t.year, t.month, t.day, t.hour, t.minute, 0⟩ := by
  obtain ⟨h1, h2, h3, h4, h5, h6, h7, h8, h9⟩ := h
  have hd : t.day < 100 := by
    have := daysInMonth_le t.year t.month
    omega
  have e1 := parseNum_pad2 t.day hd
  have e2 := parseMonthFull_full t.month h3 h4
  have e3 := parseNum4_pad4 t.year (by omega)
  have e4 := parseNum_pad2 (hr12 t.hour) (hr12_lt_100 t.hour)
  have e5 := parseNum_pad2 t.minute (by omega)
  have e6 := parseAmPm_ampmChars t.hour
  have e7 := mkDateTime?_valid t.year t.month t.day
      (hourFrom12 (hr12 t.hour) (decide (12 ≤ t.hour))) t.minute 0
      ⟨h1, h2, h3, h4, h5, h6, hourFrom12_le t.hour h7, h8, by omega⟩
  simp only [parseFmt2, render2, e1, e2, e3, e4, e5, e6, e7, expect_cons_self,
    Option.bind_eq_bind, Option.some_bind, List.isEmpty_nil, if_true]
  rw [hourFrom12_hr12 t.hour h7]

lemma parseFmt3_render3 (t : PyDateTime) (h : ValidDT t) :
    parseFmt3 (render3 t) = some ⟨t.year, t.month, t.day, t.hour, t.minute, 0⟩ := by
  obtain ⟨h1, h2, h3, h4, h5, h6, h7, h8, h9⟩ := h
  have hd : t.day < 100 := by
    have := daysInMonth_le t.year t.month
    omega
  have e1 := parseNum_pad2 t.day hd
  have e2 := parseMonthAbbr_abbr t.month h3 h4
  have e3 := parseNum4_pad4 t.year (by omega)
  have e4 := parseNum_pad2 (hr12 t.hour) (hr12_lt_100 t.hour)
  have e5 := parseNum_pad2 t.minute (by omega)
  have e6 := parseAmPm_ampmChars t.hour
  have e7 := mkDateTime?_valid t.year t.month t.day
      (hourFrom12 (hr12 t.hour) (decide (12 ≤ t.hour))) t.minute 0
      ⟨h1, h2, h3, h4, h5, h6, hourFrom12_le t.hour h7, h8, by omega⟩
  simp only [parseFmt3, render3, e1, e2, e3, e4, e5, e6, e7, expect_cons_self,
    Option.bind_eq_bind, Option.some_bind, List.isEmpty_nil, if_true]
  rw [hourFrom12_hr12 t.hour h7]

lemma parseFmt4_render4 (t : PyDateTime) (h : ValidDT t) :
    parseFmt4 (render4 t) = some ⟨t.year, t.month, t.day, t.hour, t.minute, 0⟩ := by
  obtain ⟨h1, h2, h3, h4, h5, h6, h7, h8, h9⟩ := h
  have hd : t.day < 100 := by
    have := daysInMonth_le t.year t.month
    omega
  have e1 := parseNum_pad2 t.day hd
  have e2 := parseMonthFull_full t.month h3 h4
  have e3 := parseNum4_pad4 t.year (by omega)
  have e4 := parseNum_pad2 (hr12 t.hour) (hr12_lt_100 t.hour)
  have e5 := parseNum_pad2 t.minute (by omega)
  have e6 := parseAmPm_ampmChars t.hour
  have e7 := mkDateTime?_valid t.year t.month t.day
      (hourFrom12 (hr12 t.hour) (decide (12 ≤ t.hour))) t.minute 0
      ⟨h1, h2, h3, h4, h5, h6, hourFrom12_le t.hour h7, h8, by omega⟩
  simp only [parseFmt4, render4, e1, e2, e3, e4, e5, e6, e7, expect_cons_self,
    Option.bind_eq_bind, Option.some_bind, List.isEmpty_nil, if_true]
  rw [hourFrom12_hr12 t.hour h7]

lemma parseFmt5_render5 (t : PyDateTime) (h : ValidDT t) :
    parseFmt5 (render5 t) = some t := by
  obtain ⟨h1, h2, h3, h4, h5, h6, h7, h8, h9⟩ := h
  have hd : t.day < 100 := by
    have := daysInMonth_le t.year t.month
    omega
  have e1 := parseNum4_pad4 t.year (by omega)
  have e2 := parseNum_pad2 t.month (by omega)
  have e3 := parseNum_pad2 t.day hd
  have e4 := parseNum_pad2 t.hour (by omega)
  have e5 := parseNum_pad2 t.minute (by omega)
  have e6 : parseNum 2 (pad2 t.second) = some (t.second, []) := by
    have := parseNum_pad2 t.second (by omega) []
    simpa using this
  have e7 := mkDateTime?_valid t.year t.month t.day t.hour t.minute t.second
      ⟨h1, h2, h3, h4, h5, h6, h7, h8, h9⟩
  simp only [parseFmt5, render5, e1, e2, e3, e4, e5, e6, e7, expect_cons_self,
    Option.bind_eq_bind, Option.some_bind, List.isEmpty_nil, if_true]

lemma parseFmt6_render6 (t : PyDateTime) (h : ValidDT t) :
    parseFmt6 (render6 t) = some ⟨t.year, t.month, t.day, t.hour, t.minute, 0⟩ := by
  obtain ⟨h1, h2, h3, h4, h5, h6, h7, h8, h9⟩ := h
  have hd : t.day < 100 := by
    have := daysInMonth_le t.year t.month
    omega
  have e1 := parseNum_pad2 t.day hd
  have e2 := parseNum_pad2 t.month (by omega)
  have e3 := parseNum4_pad4 t.year (by omega)
  have e4 := parseNum_pad2 t.hour (by omega)
  have e5 : parseNum 2 (pad2 t.minute) = some (t.minute, []) := by
    have := parseNum_pad2 t.minute (by omega) []
    simpa using this
  have e7 := mkDateTime?_valid t.year t.month t.day t.hour t.minute 0
      ⟨h1, h2, h3, h4, h5, h6, h7, h8, by omega⟩
  simp only [parseFmt6, render6, e1, e2, e3, e4, e5, e7, expect_cons_self,
    Option.bind_eq_bind, Option.some_bind, List.isEmpty_nil, if_true]

lemma parseFmt7_render7 (t : PyDateTime) (h : ValidDT t) :
    parseFmt7 (render7 t) = some ⟨t.year, t.month, t.day, t.hour, t.minute, 0⟩ := by
  obtain ⟨h1, h2, h3, h4, h5, h6, h7, h8, h9⟩ := h
  have hd : t.day < 100 := by
    have := daysInMonth_le t.year t.month
    omega
  have e1 := parseNum_pad2 t.day hd
  have e2 := parseNum_pad2 t.month (by omega)
  have e3 := parseNum4_pad4 t.year (by omega)
  have e4 := parseNum_pad2 t.hour (by omega)
  have e5 : parseNum 2 (pad2 t.minute) = some (t.minute, []) := by
    have := parseNum_pad2 t.minute (by omega) []
    simpa using this
  have e7 := mkDateTime?_valid t.year t.month t.day t.hour t.minute 0
      ⟨h1, h2, h3, h4, h5, h6, h7, h8, by omega⟩
  simp only [parseFmt7, render7, e1, e2, e3, e4, e5, e7, expect_cons_self,
    Option.bind_eq_bind, Option.some_bind, List.isEmpty_nil, if_true]

lemma parseFmt1_render2 (t : PyDateTime) (h : ValidDT t) (h5 : t.month ≠ 5) :
    parseFmt1 (render2 t) = none := by
  obtain ⟨h1, h2, h3, h4, hd5, h6, h7, h8, h9⟩ := h
  have hd : t.day < 100 := by
    have := daysInMonth_le t.year t.month
    omega
  have e1 := parseNum_pad2 t.day hd
  have e2 := parseMonthAbbr_full t.month h3 h4
  have e3 := expect_comma_monthTail t.month h3 h4 h5
  simp only [parseFmt1, render2, e1, e2, e3, expect_cons_self,
    Option.bind_eq_bind, Option.some_bind, Option.none_bind]

lemma parseFmt1_render3 (t : PyDateTime) (h : ValidDT t) :
    parseFmt1 (render3 t) = none := by
  obtain ⟨h1, h2, h3, h4, hd5, h6, h7, h8, h9⟩ := h
  have hd : t.day < 100 := by
    have := daysInMonth_le t.year t.month
    omega
  have e1 := parseNum_pad2 t.day hd
  have e2 := parseMonthAbbr_abbr t.month h3 h4
  have e3 := expect_cons_ne ',' ' ' (by decide)
  simp only [parseFmt1, render3, e1, e2, e3, expect_cons_self,
    Option.bind_eq_bind, Option.some_bind, Option.none_bind]

lemma parseFmt2_render3 (t : PyDateTime) (h : ValidDT t) :
    parseFmt2 (render3 t) = none := by
  obtain ⟨h1, h2, h3, h4, hd5, h6, h7, h8, h9⟩ := h
  have hd : t.day < 100 := by
    have := daysInMonth_le t.year t.month
    omega
  have e1 := parseNum_pad2 t.day hd
  by_cases hm : t.month = 5
  · have e2 := parseMonthFull_abbr_space_may
    have e3 := expect_cons_ne ',' ' ' (by decide)
    simp only [parseFmt2, render3, hm, e1, e2, e3, expect_cons_self,
      Option.bind_eq_bind, Option.some_bind, Option.none_bind]
  · have e2 := parseMonthFull_abbr_space t.month h3 h4 hm
    simp only [parseFmt2, render3, e1, e2, expect_cons_self,
      Option.bind_eq_bind, Option.some_bind, Option.none_bind]

lemma parseFmt1_render4 (t : PyDateTime) (h : ValidDT t) (h5 : t.month ≠ 5) :
    parseFmt1 (render4 t) = none := by
  obtain ⟨h1, h2, h3, h4, hd5, h6, h7, h8, h9⟩ := h
  have hd : t.day < 100 := by
    have := daysInMonth_le t.year t.month
    omega
  have e1 := parseNum_pad2 t.day hd
  have e2 := parseMonthAbbr_full t.month h3 h4
  have e3 := expect_comma_monthTail t.month h3 h4 h5
  simp only [parseFmt1, render4, e1, e2, e3, expect_cons_self,
    Option.bind_eq_bind, Option.some_bind, Option.none_bind]

lemma parseFmt2_render4 (t : PyDateTime) (h : ValidDT t) :
    parseFmt2 (render4 t) = none := by
  obtain ⟨h1, h2, h3, h4, hd5, h6, h7, h8, h9⟩ := h
  have hd : t.day < 100 := by
    have := daysInMonth_le t.year t.month
    omega
  have e1 := parseNum_pad2 t.day hd
  have e2 := parseMonthFull_full t.month h3 h4
  have e3 := expect_cons_ne ',' ' ' (by decide)
  simp only [parseFmt2, render4, e1, e2, e3, expect_cons_self,
    Option.bind_eq_bind, Option.some_bind, Option.none_bind]

lemma parseFmt3_render4 (t : PyDateTime) (h : ValidDT t) (h5 : t.month ≠ 5) :
    parseFmt3 (render4 t) = none := by
  obtain ⟨h1, h2, h3, h4, hd5, h6, h7, h8, h9⟩ := h
  have hd : t.day < 100 := by
    have := daysInMonth_le t.year t.month
    omega
  have e1 := parseNum_pad2 t.day hd
  have e2 := parseMonthAbbr_full t.month h3 h4
  have e3 := expect_space_monthTail t.month h3 h4 h5
  simp only [parseFmt3, render4, e1, e2, e3, expect_cons_self,
    Option.bind_eq_bind, Option.some_bind, Option.none_bind]

lemma parseFmt1_render5 (t : PyDateTime) (h : ValidDT t) :
    parseFmt1 (render5 t) = none := by
  obtain ⟨h1, h2, h3, h4, hd5, h6, h7, h8, h9⟩ := h
  have e1 := parseNum2_pad4 t.year (by omega)
  have e2 := expect_digitChar ' ' (t.year / 10 % 10) (by omega) rfl
  simp only [parseFmt1, render5, e1, e2,
    Option.bind_eq_bind, Option.some_bind, Option.none_bind]

lemma parseFmt2_render5 (t : PyDateTime) (h : ValidDT t) :
    parseFmt2 (render5 t) = none := by
  obtain ⟨h1, h2, h3, h4, hd5, h6, h7, h8, h9⟩ := h
  have e1 := parseNum2_pad4 t.year (by omega)
  have e2 := expect_digitChar ' ' (t.year / 10 % 10) (by omega) rfl
  simp only [parseFmt2, render5, e1, e2,
    Option.bind_eq_bind, Option.some_bind, Option.none_bind]

lemma parseFmt3_render5 (t : PyDateTime) (h : ValidDT t) :
    parseFmt3 (render5 t) = none := by
  obtain ⟨h1, h2, h3, h4, hd5, h6, h7, h8, h9⟩ := h
  have e1 := parseNum2_pad4 t.year (by omega)
  have e2 := expect_digitChar ' ' (t.year / 10 % 10) (by omega) rfl
  simp only [parseFmt3, render5, e1, e2,
    Option.bind_eq_bind, Option.some_bind, Option.none_bind]

lemma parseFmt4_render5 (t : PyDateTime) (h : ValidDT t) :
    parseFmt4 (render5 t) = none := by
  obtain ⟨h1, h2, h3, h4, hd5, h6, h7, h8, h9⟩ := h
  have e1 := parseNum2_pad4 t.year (by omega)
  have e2 := expect_digitChar ' ' (t.year / 10 % 10) (by omega) rfl
  simp only [parseFmt4, render5, e1, e2,
    Option.bind_eq_bind, Option.some_bind, Option.none_bind]

lemma parseFmt1_render6 (t : PyDateTime) (h : ValidDT t) :
    parseFmt1 (render6 t) = none := by
  obtain ⟨h1, h2, h3, h4, hd5, h6, h7, h8, h9⟩ := h
  have hd : t.day < 100 := by
    have := daysInMonth_le t.year t.month
    omega
  have e1 := parseNum_pad2 t.day hd
  have e2 := expect_cons_ne ' ' '/' (by decide)
  simp only [parseFmt1, render6, e1, e2,
    Option.bind_eq_bind, Option.some_bind, Option.none_bind]

lemma parseFmt2_render6 (t : PyDateTime) (h : ValidDT t) :
    parseFmt2 (render6 t) = none := by
  obtain ⟨h1, h2, h3, h4, hd5, h6, h7, h8, h9⟩ := h
  have hd : t.day < 100 := by
    have := daysInMonth_le t.year t.month
    omega
  have e1 := parseNum_pad2 t.day hd
  have e2 := expect_cons_ne ' ' '/' (by decide)
  simp only [parseFmt2, render6, e1, e2,
    Option.bind_eq_bind, Option.some_bind, Option.none_bind]

lemma parseFmt3_render6 (t : PyDateTime) (h : ValidDT t) :
    parseFmt3 (render6 t) = none := by
  obtain ⟨h1, h2, h3, h4, hd5, h6, h7, h8, h9⟩ := h
  have hd : t.day < 100 := by
    have := daysInMonth_le t.year t.month
    omega
  have e1 := parseNum_pad2 t.day hd
  have e2 := expect_cons_ne ' ' '/' (by decide)
  simp only [parseFmt3, render6, e1, e2,
    Option.bind_eq_bind, Option.some_bind, Option.none_bind]

lemma parseFmt4_render6 (t : PyDateTime) (h : ValidDT t) :
    parseFmt4 (render6 t) = none := by
  obtain ⟨h1, h2, h3, h4, hd5, h6, h7, h8, h9⟩ := h
  have hd : t.day < 100 := by
    have := daysInMonth_le t.year t.month
    omega
  have e1 := parseNum_pad2 t.day hd
  have e2 := expect_cons_ne ' ' '/' (by decide)
  simp only [parseFmt4, render6, e1, e2,
    Option.bind_eq_bind, Option.some_bind, Option.none_bind]

lemma parseFmt5_render6 (t : PyDateTime) (h : ValidDT t) :
    parseFmt5 (render6 t) = none := by
  obtain ⟨h1, h2, h3, h4, hd5, h6, h7, h8, h9⟩ := h
  have hd : t.day < 100 := by
    have := daysInMonth_le t.year t.month
    omega
  have e1 := parseNum4_pad2_stop t.day hd '/' rfl
  simp only [parseFmt5, render6, e1,
    Option.bind_eq_bind, Option.some_bind, Option.none_bind]

lemma parseFmt1_render7 (t : PyDateTime) (h : ValidDT t) :
    parseFmt1 (render7 t) = none := by
  obtain ⟨h1, h2, h3, h4, hd5, h6, h7, h8, h9⟩ := h
  have hd : t.day < 100 := by
    have := daysInMonth_le t.year t.month
    omega
  have e1 := parseNum_pad2 t.day hd
  have e2 := expect_cons_ne ' ' '-' (by decide)
  simp only [parseFmt1, render7, e1, e2,
    Option.bind_eq_bind, Option.some_bind, Option.none_bind]

lemma parseFmt2_render7 (t : PyDateTime) (h : ValidDT t) :
    parseFmt2 (render7 t) = none := by
  obtain ⟨h1, h2, h3, h4, hd5, h6, h7, h8, h9⟩ := h
  have hd : t.day < 100 := by
    have := daysInMonth_le t.year t.month
    omega
  have e1 := parseNum_pad2 t.day hd
  have e2 := expect_cons_ne ' ' '-' (by decide)
  simp only [parseFmt2, render7, e1, e2,
    Option.bind_eq_bind, Option.some_bind, Option.none_bind]

lemma parseFmt3_render7 (t : PyDateTime) (h : ValidDT t) :
    parseFmt3 (render7 t) = none := by
  obtain ⟨h1, h2, h3, h4, hd5, h6, h7, h8, h9⟩ := h
  have hd : t.day < 100 := by
    have := daysInMonth_le t.year t.month
    omega
  have e1 := parseNum_pad2 t.day hd
  have e2 := expect_cons_ne ' ' '-' (by decide)
  simp only [parseFmt3, render7, e1, e2,
    Option.bind_eq_bind, Option.some_bind, Option.none_bind]

lemma parseFmt4_render7 (t : PyDateTime) (h : ValidDT t) :
    parseFmt4 (render7 t) = none := by
  obtain ⟨h1, h2, h3, h4, hd5, h6, h7, h8, h9⟩ := h
  have hd : t.day < 100 := by
    have := daysInMonth_le t.year t.month
    omega
  have e1 := parseNum_pad2 t.day hd
  have e2 := expect_cons_ne ' ' '-' (by decide)
  simp only [parseFmt4, render7, e1, e2,
    Option.bind_eq_bind, Option.some_bind, Option.none_bind]

lemma parseFmt5_render7 (t : PyDateTime) (h : ValidDT t) :
    parseFmt5 (render7 t) = none := by
  obtain ⟨h1, h2, h3, h4, hd5, h6, h7, h8, h9⟩ := h
  have hd : t.day < 100 := by
    have := daysInMonth_le t.year t.month
    omega
  have e1 := parseNum4_pad2_stop t.day hd '-' rfl
  simp only [parseFmt5, render7, e1,
    Option.bind_eq_bind, Option.some_bind, Option.none_bind]

lemma parseFmt6_render7 (t : PyDateTime) (h : ValidDT t) :
    parseFmt6 (render7 t) = none := by
  obtain ⟨h1, h2, h3, h4, hd5, h6, h7, h8, h9⟩ := h
  have hd : t.day < 100 := by
    have := daysInMonth_le t.year t.month
    omega
  have e1 := parseNum_pad2 t.day hd
  have e2 := expect_cons_ne '/' '-' (by decide)
  simp only [parseFmt6, render7, e1, e2,
    Option.bind_eq_bind, Option.some_bind, Option.none_bind]

/-- For May—the one month whose full name equals its abbreviation—the
`%B` rendering coincides with the `%b` one. -/
lemma render2_may (t : PyDateTime) (hm : t.month = 5) : render2 t = render1 t := by
  simp only [render2, render1, hm]
  rfl

lemma render4_may (t : PyDateTime) (hm : t.month = 5) : render4 t = render3 t := by
  simp only [render4, render3, hm]
  rfl

lemma roundtrip1 (t : PyDateTime) (h : ValidDT t) :
    ∃ t2, parse_date_chars (render1 t) = some t2 ∧ render1 t2 = render1 t := by
  refine ⟨⟨t.year, t.month, t.day, t.hour, t.minute, 0⟩, ?_, rfl⟩
  simp only [parse_date_chars, parseFmt1_render1 t h]

lemma roundtrip2 (t : PyDateTime) (h : ValidDT t) :
    ∃ t2, parse_date_chars (render2 t) = some t2 ∧ render2 t2 = render2 t := by
  refine ⟨⟨t.year, t.month, t.day, t.hour, t.minute, 0⟩, ?_, rfl⟩
  by_cases hm : t.month = 5
  · rw [render2_may t hm]
    simp only [parse_date_chars, parseFmt1_render1 t h]
  · simp only [parse_date_chars, parseFmt1_render2 t h hm, parseFmt2_render2 t h]

lemma roundtrip3 (t : PyDateTime) (h : ValidDT t) :
    ∃ t2, parse_date_chars (render3 t) = some t2 ∧ render3 t2 = render3 t := by
  refine ⟨⟨t.year, t.month, t.day, t.hour, t.minute, 0⟩, ?_, rfl⟩
  simp only [parse_date_chars, parseFmt1_render3 t h, parseFmt2_render3 t h,
    parseFmt3_render3 t h]

lemma roundtrip4 (t : PyDateTime) (h : ValidDT t) :
    ∃ t2, parse_date_chars (render4 t) = some t2 ∧ render4 t2 = render4 t := by
  refine ⟨⟨t.year, t.month, t.day, t.hour, t.minute, 0⟩, ?_, rfl⟩
  by_cases hm : t.month = 5
  · rw [render4_may t hm]
    simp only [parse_date_chars, parseFmt1_render3 t h, parseFmt2_render3 t h,
      parseFmt3_render3 t h]
  · simp only [parse_date_chars, parseFmt1_render4 t h hm, parseFmt2_render4 t h,
      parseFmt3_render4 t h hm, parseFmt4_render4 t h]

lemma roundtrip5 (t : PyDateTime) (h : ValidDT t) :
    ∃ t2, parse_date_chars (render5 t) = some t2 ∧ render5 t2 = render5 t := by
  refine ⟨t, ?_, rfl⟩
  simp only [parse_date_chars, parseFmt1_render5 t h, parseFmt2_render5 t h,
    parseFmt3_render5 t h, parseFmt4_render5 t h, parseFmt5_render5 t h]

lemma roundtrip6 (t : PyDateTime) (h : ValidDT t) :
    ∃ t2, parse_date_chars (render6 t) = some t2 ∧ render6 t2 = render6 t := by
  refine ⟨⟨t.year, t.month, t.day, t.hour, t.minute, 0⟩, ?_, rfl⟩
  simp only [parse_date_chars, parseFmt1_render6 t h, parseFmt2_render6 t h,
    parseFmt3_render6 t h, parseFmt4_render6 t h, parseFmt5_render6 t h,
    parseFmt6_render6 t h]

lemma roundtrip7 (t : PyDateTime) (h : ValidDT t) :
    ∃ t2, parse_date_chars (render7 t) = some t2 ∧ render7 t2 = render7 t := by
  refine ⟨⟨t.year, t.month, t.day, t.hour, t.minute, 0⟩, ?_, rfl⟩
  simp only [parse_date_chars, parseFmt1_render7 t h, parseFmt2_render7 t h,
    parseFmt3_render7 t h, parseFmt4_render7 t h, parseFmt5_render7 t h,
    parseFmt6_render7 t h, parseFmt7_render7 t h]

/-- C8: every date string that is a literal rendering of one of the parser's
seven fixed format patterns (e.g. `"15 Mar, 2024 10:30AM"`,
`"2024-03-15 10:30:00"`) is parsed successfully by `parse_date`, and
re-rendering the resulting timestamp in the same format reproduces the
original string exactly. -/
theorem parse_date_roundtrip (k : Fin 7) (t : PyDateTime) (h : ValidDT t) :
    ∃ t2, parse_date (renderFmt k t) = some t2 ∧ renderFmt k t2 = renderFmt k t := by
  fin_cases k
  · rcases roundtrip1 t h with ⟨t2, hp, hr⟩
    exact ⟨t2, hp, congrArg String.mk hr⟩
  · rcases roundtrip2 t h with ⟨t2, hp, hr⟩
    exact ⟨t2, hp, congrArg String.mk hr⟩
  · rcases roundtrip3 t h with ⟨t2, hp, hr⟩
    exact ⟨t2, hp, congrArg String.mk hr⟩
  · rcases roundtrip4 t h with ⟨t2, hp, hr⟩
    exact ⟨t2, hp, congrArg String.mk hr⟩
  · rcases roundtrip5 t h with ⟨t2, hp, hr⟩
    exact ⟨t2, hp, congrArg String.mk hr⟩
  · rcases roundtrip6 t h with ⟨t2, hp, hr⟩
    exact ⟨t2, hp, congrArg String.mk hr⟩
  · rcases roundtrip7 t h with ⟨t2, hp, hr⟩
    exact ⟨t2, hp, congrArg String.mk hr⟩

/-- A concrete valid timestamp for the round-trip witness. -/
def sampleDT : PyDateTime :=
  { year := 2024, month := 3, day := 15, hour := 10, minute := 30, second := 0 }

/-- Witness for `parse_date_roundtrip` on the first format at a concrete
timestamp (the string `"15 Mar, 2024 10:30AM"`). -/
theorem parse_date_roundtrip_witness :
    ValidDT sampleDT ∧
    ∃ t2, parse_date (renderFmt 0 sampleDT) = some t2 ∧
      renderFmt 0 t2 = renderFmt 0 sampleDT :=
  ⟨by decide, parse_date_roundtrip 0 sampleDT (by decide)⟩
